import Mathlib

/-!
Verification of the Morpheus property-graph layer: a shallow embedding of
the graph/schema core (graph/mod.rs, server/schema/mod.rs,
graph/edge/indirect.rs) together with models of the repository modules that
are not part of the staged sources (graph/fields.rs, graph/id_list.rs,
graph/vertex.rs, graph/edge/*) and of the external Store, reconstructed from
the specification's description of their behaviour.  All definitions are
executable; theorems at the end settle the frozen claims.
-/

namespace Morpheus

/-- A 128-bit cell identifier, two 64-bit halves (neb's `Id { higher, lower }`). -/
structure Id where
  higher : Nat
  lower : Nat
deriving DecidableEq, Repr

/-- The reserved empty/sentinel identifier (`Id::unit_id()`). -/
def Id.unit_id : Id := ⟨0, 0⟩

/-- Modelled from the spec: bifrost's `key_hash` turning a field name into its
u64 key id.  Only injectivity on the names in play matters; the model uses a
simple base-256 fold. -/
def key_hash (s : String) : Nat :=
  s.data.foldl (fun h c => h * 256 + c.toNat) 0

/-- A dovahkiin value: the subset of the value universe the graph layer
manipulates (ids, integers, maps keyed by field key id, null). -/
inductive Value where
  | IdV : Id → Value
  | U64V : Nat → Value
  | MapV : List (Nat × Value) → Value
  | Null : Value
deriving Repr

/-- A map body: association list from field key id to value. -/
abbrev MapB := List (Nat × Value)

/-- Dovahkiin `Map::insert_key_id`: replace the binding of `k` when present,
otherwise add it. -/
def insertKeyId (m : MapB) (k : Nat) (v : Value) : MapB :=
  if m.any (fun p => decide (p.1 = k)) then
    m.map (fun p => if p.1 = k then (k, v) else p)
  else
    m ++ [(k, v)]

/-- Lookup of a field by key id in a map body. -/
def getKeyId (m : MapB) (k : Nat) : Option Value :=
  (m.find? (fun p => decide (p.1 = k))).map Prod.snd

/-- A neb schema field (`Field { name, type_id, nullable, is_array, sub_fields }`). -/
structure Field where
  name : String
  type_id : Nat
  nullable : Bool
  is_array : Bool
  sub_fields : Option (List Field)
deriving Repr

/-- Constructor mirroring `Field::new(name, type, nullable, is_array, sub)`. -/
def Field.new (name : String) (type_id : Nat) (nullable is_array : Bool)
    (sub_fields : Option (List Field)) : Field :=
  ⟨name, type_id, nullable, is_array, sub_fields⟩

/-- The numeric value of neb's `TypeId::Id as u32`; its concrete value is
opaque to the graph layer, only its identity matters. -/
def TYPE_ID_OF_ID : Nat := 24

/-- Edge direction attribute (`EdgeType := Directed | Undirected`). -/
inductive EdgeType where
  | Directed
  | Undirected
deriving DecidableEq, Repr

/-- Edge attributes: `{ edge_type, has_body }`. -/
structure EdgeAttributes where
  edge_type : EdgeType
  has_body : Bool
deriving DecidableEq, Repr

/-- Schema types held by the registry (`SchemaType` in server/schema/mod.rs). -/
inductive SchemaType where
  | Unspecified
  | Vertex
  | Edge (ea : EdgeAttributes)
deriving DecidableEq, Repr

/-- Schema-layer errors (`SchemaError` in server/schema/mod.rs; the two
Exec-error payloads are external and dropped). -/
inductive SchemaError where
  | NewNebSchemaExecError
  | NewMorpheusSchemaExecError
  | SimpleEdgeShouldNotHaveSchema
  | SchemaTypeUnspecified
deriving DecidableEq, Repr

/-- Key ids of the three reserved vertex slot fields.  graph/fields.rs is not
part of the staged sources; modelled from the spec: the reserved fields
`INBOUND`, `OUTBOUND`, `UNDIRECTED`. -/
def INBOUND_KEY_ID : Nat := key_hash "_inbound"

/-- Key id of the `OUTBOUND` slot field. -/
def OUTBOUND_KEY_ID : Nat := key_hash "_outbound"

/-- Key id of the `UNDIRECTED` slot field. -/
def UNDIRECTED_KEY_ID : Nat := key_hash "_undirected"

/-- Modelled from the spec: graph/fields.rs `VERTEX_TEMPLATE`, the three
adjacency-slot fields every vertex schema carries, each of `Id` type. -/
def VERTEX_TEMPLATE : List Field :=
  [ Field.new "_inbound" TYPE_ID_OF_ID false false none,
    Field.new "_outbound" TYPE_ID_OF_ID false false none,
    Field.new "_undirected" TYPE_ID_OF_ID false false none ]

/-- graph/edge/indirect.rs `EDGE_TEMPLATE`: the two endpoint fields of an
undirected (indirect) edge cell, each of `Id` type. -/
def UNDIRECTED_EDGE_TEMPLATE : List Field :=
  [ Field.new "_vertex_a" TYPE_ID_OF_ID false false none,
    Field.new "_vertex_b" TYPE_ID_OF_ID false false none ]

/-- Modelled from the spec: graph/edge/directed.rs `EDGE_TEMPLATE` (the file
is not in the staged sources): `{ _vertex_from, _vertex_to, ...user fields }`
for directed edges. -/
def DIRECTED_EDGE_TEMPLATE : List Field :=
  [ Field.new "_vertex_from" TYPE_ID_OF_ID false false none,
    Field.new "_vertex_to" TYPE_ID_OF_ID false false none ]

/-- server/schema/mod.rs `cell_fields`: composes the stored cell layout for a
schema type from the per-kind template followed by the user body fields.  A
bodyless edge schema rejects user fields; an unspecified type is rejected. -/
def cell_fields (schema_type : SchemaType) (body_fields : List Field) :
    Except SchemaError (List Field) :=
  match schema_type with
  | SchemaType.Vertex => .ok (VERTEX_TEMPLATE ++ body_fields)
  | SchemaType.Edge edge_attr =>
      if !edge_attr.has_body && body_fields.length > 0 then
        .error SchemaError.SimpleEdgeShouldNotHaveSchema
      else
        match edge_attr.edge_type with
        | EdgeType.Directed => .ok (DIRECTED_EDGE_TEMPLATE ++ body_fields)
        | EdgeType.Undirected => .ok (UNDIRECTED_EDGE_TEMPLATE ++ body_fields)
  | SchemaType.Unspecified => .error SchemaError.SchemaTypeUnspecified

/-- A neb store schema: id, name, optional string key field path, the root
field (whose `sub_fields` hold the cell layout) and the dynamic flag. -/
structure Schema where
  id : Nat
  name : String
  str_key_field : Option (List String)
  fields : Field
  is_dynamic : Bool
deriving Repr

/-- A cell header as the Store keeps it: the cell id and a version counter
(the Store-filled part). -/
structure CellHeader where
  id : Id
  version : Nat
deriving DecidableEq, Repr

/-- A typed Store cell: schema id, header, and a body value. -/
structure Cell where
  schema_id : Nat
  header : CellHeader
  data : Value
deriving Repr

/-- Modelled from the spec: whether a map body satisfies a schema field set
(the external Store accepts a cell body exactly when the field set satisfies
the schema; every non-nullable field must be present under its name's key). -/
def fieldsSatisfied (fs : List Field) (m : MapB) : Bool :=
  fs.all (fun f => f.nullable || (getKeyId m (key_hash f.name)).isSome)

/-- A shallow numeric fingerprint of a value, used only to pick assigned ids. -/
def Value.top_val : Value → Nat
  | Value.IdV i => i.higher * 7 + i.lower
  | Value.U64V n => n
  | _ => 0

/-- Modelled from the spec: a deterministic stand-in for the id the external
Store's cell constructor assigns at construction time (key-derived or random
in neb); only its stability between construction and write matters here. -/
def assignedId (schema_id : Nat) (v : Value) : Id :=
  ⟨schema_id + 1,
    match v with
    | Value.MapV m => m.foldl (fun h p => h * 31 + p.1 + p.2.top_val) 3
    | _ => 0⟩

/-- Modelled from the spec: neb's `Cell::new(schema, value)`.  Constructs a
cell whose header carries the assigned id, or nothing when the body is not a
map or the field set does not satisfy the schema. -/
def Cell.new (schema : Schema) (value : Value) : Option Cell :=
  match value with
  | Value.MapV m =>
      if fieldsSatisfied ((schema.fields.sub_fields).getD []) m then
        some ⟨schema.id, ⟨assignedId schema.id value, 0⟩, value⟩
      else none
  | _ => none

/-- The schema container's observable state: the replicated
`schema_id → SchemaType` map, the neb schema registry and the neb
name-to-id registry, all as association lists. -/
structure SchemaContainer where
  type_map : List (Nat × SchemaType)
  neb_schemas : List (Nat × Schema)
  name_ids : List (String × Nat)
deriving Repr

/-- server/schema/mod.rs `SchemaContainer::schema_type`: local lookup in the
replicated type map. -/
def SchemaContainer.schema_type (sc : SchemaContainer) (schema_id : Nat) :
    Option SchemaType :=
  (sc.type_map.find? (fun p => decide (p.1 = schema_id))).map Prod.snd

/-- server/schema/mod.rs `SchemaContainer::get_neb_schema`. -/
def SchemaContainer.get_neb_schema (sc : SchemaContainer) (schema_id : Nat) :
    Option Schema :=
  (sc.neb_schemas.find? (fun p => decide (p.1 = schema_id))).map Prod.snd

/-- server/schema/mod.rs `SchemaContainer::id_from_name`: the neb registry's
name-to-id lookup. -/
def SchemaContainer.id_from_name (sc : SchemaContainer) (name : String) :
    Option Nat :=
  (sc.name_ids.find? (fun p => decide (p.1 = name))).map Prod.snd

/-- The ways a schema is passed to the public operations (the `ToSchemaId`
implementors: a raw u32 id, or a name looked up in the registry). -/
inductive SchemaRef where
  | byId (id : Nat)
  | byName (name : String)
deriving DecidableEq, Repr

/-- `ToSchemaId::to_id`: a u32 passes through; a name resolves through
`id_from_name`, defaulting to 0 when the name is unknown (`unwrap_or(0)`). -/
def SchemaRef.to_id (r : SchemaRef) (schemas : SchemaContainer) : Nat :=
  match r with
  | SchemaRef.byId i => i
  | SchemaRef.byName n => (schemas.id_from_name n).getD 0

/-- Modelled from the spec: graph/vertex.rs `Vertex` (the file is not in the
staged sources): a vertex wraps its cell. -/
structure Vertex where
  cell : Cell
deriving Repr

/-- Modelled from the spec: `Vertex::new(schema, data)` builds an unwritten
vertex whose cell carries the schema id and the map body. -/
def Vertex.new (schema : Nat) (data : MapB) : Vertex :=
  ⟨⟨schema, ⟨Id.unit_id, 0⟩, Value.MapV data⟩⟩

/-- The vertex's schema id (`vertex.schema()`). -/
def Vertex.schema (v : Vertex) : Nat := v.cell.schema_id

/-- Modelled from the spec: graph/vertex.rs `cell_to_vertex`, the inverse
translation; never fails. -/
def cell_to_vertex (c : Cell) : Vertex := ⟨c⟩

/-- The vertex's id, taken from its cell header. -/
def Vertex.vid (v : Vertex) : Id := v.cell.header.id

/-- graph/mod.rs `NewVertexError` (external error payloads dropped). -/
inductive NewVertexError where
  | SchemaNotFound
  | SchemaNotVertex (st : SchemaType)
  | CannotGenerateCellByData
  | DataNotMap
  | RPCError
  | WriteError
deriving DecidableEq, Repr

/-- graph/mod.rs `vertex_to_cell_for_write`: resolves the schema type
(rejecting non-vertex schemas and unknown ids), requires the stored neb
schema and a map body, injects the three adjacency slot fields (all
`UNIT_ID`) and constructs the cell. -/
def vertex_to_cell_for_write (schemas : SchemaContainer) (vertex : Vertex) :
    Except NewVertexError Cell :=
  let schema_id := vertex.schema
  match schemas.schema_type schema_id with
  | none => .error NewVertexError.SchemaNotFound
  | some stype =>
      if stype ≠ SchemaType.Vertex then
        .error (NewVertexError.SchemaNotVertex stype)
      else
        match schemas.get_neb_schema schema_id with
        | none => .error NewVertexError.SchemaNotFound
        | some neb_schema =>
            match vertex.cell.data with
            | Value.MapV m =>
                let d :=
                  insertKeyId
                    (insertKeyId
                      (insertKeyId m INBOUND_KEY_ID (Value.IdV Id.unit_id))
                      OUTBOUND_KEY_ID (Value.IdV Id.unit_id))
                    UNDIRECTED_KEY_ID (Value.IdV Id.unit_id)
                match Cell.new neb_schema (Value.MapV d) with
                | some cell => .ok cell
                | none => .error NewVertexError.CannotGenerateCellByData
            | _ => .error NewVertexError.DataNotMap

/-- Transactional errors of the external Store (`TxnError`); only the
variants the graph layer itself produces or forwards are distinguished. -/
inductive TxnError where
  | Aborted (msg : Option String)
  | Conflict
deriving DecidableEq, Repr

/-- The external Store's observable state: the committed cells, keyed by id,
plus a counter for fresh id generation. -/
structure Store where
  cells : List (Id × Cell)
  next_fresh : Nat
deriving Repr

/-- Read a cell by id (`txn.read` / `read_cell` without the error plumbing). -/
def Store.read_cell (s : Store) (i : Id) : Option Cell :=
  (s.cells.find? (fun p => decide (p.1 = i))).map Prod.snd

/-- Add a new cell under its header id. -/
def Store.insert_cell (s : Store) (c : Cell) : Store :=
  ⟨s.cells ++ [(c.header.id, c)], s.next_fresh⟩

/-- Replace the cell stored under `c`'s header id. -/
def Store.update_cell (s : Store) (c : Cell) : Store :=
  ⟨s.cells.map (fun p => if p.1 = c.header.id then (c.header.id, c) else p),
   s.next_fresh⟩

/-- Delete the cell stored under `i`. -/
def Store.remove_cell (s : Store) (i : Id) : Store :=
  ⟨s.cells.filter (fun p => decide (p.1 ≠ i)), s.next_fresh⟩

/-- Draw a fresh id for an id-list node cell. -/
def Store.fresh_id (s : Store) : Id × Store :=
  (⟨999, s.next_fresh⟩, ⟨s.cells, s.next_fresh + 1⟩)

/-- Fuel bound for id-list walks: a well-formed singly-linked list can never
be longer than the store. -/
def Store.fuel (s : Store) : Nat := s.cells.length + 1

/-- The Store's non-transactional `write_cell`: refuses an existing id,
otherwise stores the cell and returns the Store-filled header (same assigned
id, version stamped by the store). -/
def Store.write_cell (s : Store) (c : Cell) :
    (Except Unit CellHeader) × Store :=
  if (s.read_cell c.header.id).isSome then (.error (), s)
  else
    let hdr : CellHeader := ⟨c.header.id, 1⟩
    (.ok hdr, s.insert_cell ⟨c.schema_id, hdr, c.data⟩)

/-- The transactional write (`txn.write`): a write to an existing id surfaces
as an aborted transaction, the commit-time conflict folded into the step. -/
def txnWrite (s : Store) (c : Cell) : Except TxnError Store :=
  if (s.read_cell c.header.id).isSome then .error (TxnError.Aborted none)
  else .ok (s.insert_cell c)

/-- Read an `Id`-typed field of a cell's map body. -/
def Cell.get_id_field (c : Cell) (k : Nat) : Option Id :=
  match c.data with
  | Value.MapV m =>
      match getKeyId m k with
      | some (Value.IdV i) => some i
      | _ => none
  | _ => none

/-- Read a u64-typed field of a cell's map body. -/
def Cell.get_u64_field (c : Cell) (k : Nat) : Option Nat :=
  match c.data with
  | Value.MapV m =>
      match getKeyId m k with
      | some (Value.U64V n) => some n
      | _ => none
  | _ => none

/-- Overwrite one `Id`-typed field of a cell's map body. -/
def Cell.set_id_field (c : Cell) (k : Nat) (v : Id) : Cell :=
  match c.data with
  | Value.MapV m => ⟨c.schema_id, c.header, Value.MapV (insertKeyId m k (Value.IdV v))⟩
  | _ => c

/-- Modelled from the spec: graph/id_list.rs failure cases (the file is not
in the staged sources): malformed cells during a walk, or the owning vertex
cell concurrently deleted. -/
inductive IdListError where
  | FormatError
  | ContainerCellNotFound
deriving DecidableEq, Repr

/-- Modelled from the spec: the built-in plain list-node schema id
(`ID_LIST_SCHEMA_ID`), nodes `{ next : Id, value : Id }`. -/
def ID_LIST_SCHEMA_ID : Nat := 100

/-- Modelled from the spec: the built-in typed list-node schema id
(`TYPE_LIST_SCHEMA_ID`), nodes `{ next : Id, value : Id, type : u32 }`. -/
def TYPE_LIST_SCHEMA_ID : Nat := 101

/-- Key id of a list node's `next` pointer. -/
def NEXT_KEY_ID : Nat := key_hash "next"

/-- Key id of a list node's `value` payload. -/
def VALUE_KEY_ID : Nat := key_hash "value"

/-- Key id of a typed list node's `type` tag. -/
def TYPE_KEY_ID : Nat := key_hash "type"

/-- Build a plain id-list node cell. -/
def mkIdListNode (id next value : Id) : Cell :=
  ⟨ID_LIST_SCHEMA_ID, ⟨id, 0⟩,
   Value.MapV [(NEXT_KEY_ID, Value.IdV next), (VALUE_KEY_ID, Value.IdV value)]⟩

/-- Build a typed list node cell. -/
def mkTypeListNode (id next value : Id) (t : Nat) : Cell :=
  ⟨TYPE_LIST_SCHEMA_ID, ⟨id, 0⟩,
   Value.MapV [(NEXT_KEY_ID, Value.IdV next), (VALUE_KEY_ID, Value.IdV value),
               (TYPE_KEY_ID, Value.U64V t)]⟩

/-- Modelled from the spec: walk a plain id-list chain collecting the node
values in order; `next = UNIT_ID` ends the list (invariant L1); a missing or
malformed node (or a cycle, which exhausts the fuel) is an `IdListError`. -/
def walkIdChain (store : Store) : Nat → Id → Except IdListError (List Id)
  | 0, _ => .error IdListError.FormatError
  | fuel + 1, head =>
      if head = Id.unit_id then .ok []
      else
        match store.read_cell head with
        | none => .error IdListError.FormatError
        | some c =>
            if c.schema_id ≠ ID_LIST_SCHEMA_ID then .error IdListError.FormatError
            else
              match c.get_id_field VALUE_KEY_ID, c.get_id_field NEXT_KEY_ID with
              | some v, some nxt => (walkIdChain store fuel nxt).map (fun t => v :: t)
              | _, _ => .error IdListError.FormatError

/-- Modelled from the spec: the same walk counting nodes without
materialising the values (backing `count()`). -/
def countIdChain (store : Store) : Nat → Id → Except IdListError Nat
  | 0, _ => .error IdListError.FormatError
  | fuel + 1, head =>
      if head = Id.unit_id then .ok 0
      else
        match store.read_cell head with
        | none => .error IdListError.FormatError
        | some c =>
            if c.schema_id ≠ ID_LIST_SCHEMA_ID then .error IdListError.FormatError
            else
              match c.get_id_field VALUE_KEY_ID, c.get_id_field NEXT_KEY_ID with
              | some _, some nxt => (countIdChain store fuel nxt).map (fun n => n + 1)
              | _, _ => .error IdListError.FormatError

/-- Modelled from the spec: walk the typed list hanging off a vertex slot and
return the node registered for `schema_id`, when present. -/
def findTypedNode (store : Store) :
    Nat → Id → Nat → Except IdListError (Option Cell)
  | 0, _, _ => .error IdListError.FormatError
  | fuel + 1, node, schema_id =>
      if node = Id.unit_id then .ok none
      else
        match store.read_cell node with
        | none => .error IdListError.FormatError
        | some c =>
            if c.schema_id ≠ TYPE_LIST_SCHEMA_ID then .error IdListError.FormatError
            else
              match c.get_u64_field TYPE_KEY_ID, c.get_id_field VALUE_KEY_ID,
                    c.get_id_field NEXT_KEY_ID with
              | some t, some _, some nxt =>
                  if t = schema_id then .ok (some c)
                  else findTypedNode store fuel nxt schema_id
              | _, _, _ => .error IdListError.FormatError

/-- Modelled from the spec: `IdList::iter` for the list addressed by
`(owner, slot_field, schema_id)`: resolve the owner's slot (empty when it
holds `UNIT_ID`, invariant L2), find the per-schema chain and collect its
values in order. -/
def IdList.iter (store : Store) (owner : Id) (slot_field : Nat)
    (schema_id : Nat) : Except IdListError (List Id) :=
  match store.read_cell owner with
  | none => .error IdListError.ContainerCellNotFound
  | some owner_cell =>
      match owner_cell.get_id_field slot_field with
      | none => .error IdListError.FormatError
      | some slot_head =>
          if slot_head = Id.unit_id then .ok []
          else
            match findTypedNode store store.fuel slot_head schema_id with
            | .error e => .error e
            | .ok none => .ok []
            | .ok (some node) =>
                match node.get_id_field VALUE_KEY_ID with
                | none => .error IdListError.FormatError
                | some h => walkIdChain store store.fuel h

/-- Modelled from the spec: `IdList::count`, the same resolution as `iter`
but counting entries without materialising them. -/
def IdList.count (store : Store) (owner : Id) (slot_field : Nat)
    (schema_id : Nat) : Except IdListError Nat :=
  match store.read_cell owner with
  | none => .error IdListError.ContainerCellNotFound
  | some owner_cell =>
      match owner_cell.get_id_field slot_field with
      | none => .error IdListError.FormatError
      | some slot_head =>
          if slot_head = Id.unit_id then .ok 0
          else
            match findTypedNode store store.fuel slot_head schema_id with
            | .error e => .error e
            | .ok none => .ok 0
            | .ok (some node) =>
                match node.get_id_field VALUE_KEY_ID with
                | none => .error IdListError.FormatError
                | some h => countIdChain store store.fuel h

/-- Modelled from the spec: `IdList::append` (prepend is an acceptable
ordering): allocate a node for `id`, hooking up the typed node for
`schema_id` (creating it, and the slot head, on first use). -/
def IdList.append (store : Store) (owner : Id) (slot_field : Nat)
    (schema_id : Nat) (id : Id) : Except IdListError Store :=
  match store.read_cell owner with
  | none => .error IdListError.ContainerCellNotFound
  | some owner_cell =>
      match owner_cell.get_id_field slot_field with
      | none => .error IdListError.FormatError
      | some slot_head =>
          if slot_head = Id.unit_id then
            let (f1, s1) := store.fresh_id
            let (f2, s2) := s1.fresh_id
            let s3 := s2.insert_cell (mkIdListNode f1 Id.unit_id id)
            let s4 := s3.insert_cell (mkTypeListNode f2 Id.unit_id f1 schema_id)
            .ok (s4.update_cell (owner_cell.set_id_field slot_field f2))
          else
            match findTypedNode store store.fuel slot_head schema_id with
            | .error e => .error e
            | .ok (some node) =>
                match node.get_id_field VALUE_KEY_ID with
                | none => .error IdListError.FormatError
                | some h =>
                    let (f1, s1) := store.fresh_id
                    let s2 := s1.insert_cell (mkIdListNode f1 h id)
                    .ok (s2.update_cell (node.set_id_field VALUE_KEY_ID f1))
            | .ok none =>
                let (f1, s1) := store.fresh_id
                let (f2, s2) := s1.fresh_id
                let s3 := s2.insert_cell (mkIdListNode f1 Id.unit_id id)
                let s4 := s3.insert_cell (mkTypeListNode f2 slot_head f1 schema_id)
                .ok (s4.update_cell (owner_cell.set_id_field slot_field f2))

/-- Modelled from the spec: unlink the first node of a plain chain whose
value is `target`, reclaiming the node; best effort, silent when absent.
Returns the store and the chain's (possibly new) head. -/
def chainRemoveFirst (store : Store) : Nat → Id → Id → Store × Id
  | 0, head, _ => (store, head)
  | fuel + 1, head, target =>
      if head = Id.unit_id then (store, head)
      else
        match store.read_cell head with
        | none => (store, head)
        | some c =>
            match c.get_id_field VALUE_KEY_ID, c.get_id_field NEXT_KEY_ID with
            | some v, some nxt =>
                if v = target then (store.remove_cell head, nxt)
                else
                  let (s2, tail2) := chainRemoveFirst store fuel nxt target
                  (s2.update_cell (c.set_id_field NEXT_KEY_ID tail2), head)
            | _, _ => (store, head)

/-- Modelled from the spec: `IdList::remove(id)`, removing the first
occurrence from the list addressed by `(owner, slot_field, schema_id)`;
succeeds silently when the entry (or the whole list) is not present. -/
def IdList.remove_entry (store : Store) (owner : Id) (slot_field : Nat)
    (schema_id : Nat) (id : Id) : Store :=
  match store.read_cell owner with
  | none => store
  | some owner_cell =>
      match owner_cell.get_id_field slot_field with
      | none => store
      | some slot_head =>
          if slot_head = Id.unit_id then store
          else
            match findTypedNode store store.fuel slot_head schema_id with
            | .error _ => store
            | .ok none => store
            | .ok (some node) =>
                match node.get_id_field VALUE_KEY_ID with
                | none => store
                | some h =>
                    let (s2, h2) := chainRemoveFirst store store.fuel h id
                    s2.update_cell (node.set_id_field VALUE_KEY_ID h2)

/-- graph/mod.rs `EdgeDirection`. -/
inductive EdgeDirection where
  | Inbound
  | Outbound
  | Undirected
deriving DecidableEq, Repr

/-- graph/mod.rs `EdgeDirection::as_field`: the slot field key each
direction addresses. -/
def EdgeDirection.as_field : EdgeDirection → Nat
  | EdgeDirection.Inbound => INBOUND_KEY_ID
  | EdgeDirection.Outbound => OUTBOUND_KEY_ID
  | EdgeDirection.Undirected => UNDIRECTED_KEY_ID

/-- graph/edge `EdgeError` (spec section 7 taxonomy; edge/mod.rs is not in
the staged sources). -/
inductive EdgeError where
  | CannotFindSchema
  | WrongSchema
  | IdListError (e : IdListError)
  | FilterEvalError (msg : String)
  | ReadError
deriving DecidableEq, Repr

/-- Modelled from the spec: the tagged edge variants (directed and
undirected edges carry their cell; a simple edge is synthesised from the
owning list entry and has no cell of its own). -/
inductive Edge where
  | Directed (cell : Cell)
  | Undirected (cell : Cell)
  | Simple (owner : Id) (slot_field : Nat) (schema_id : Nat) (other : Id)
deriving Repr

/-- Key id of a directed edge's source endpoint field. -/
def VERTEX_FROM_KEY_ID : Nat := key_hash "_vertex_from"

/-- Key id of a directed edge's target endpoint field. -/
def VERTEX_TO_KEY_ID : Nat := key_hash "_vertex_to"

/-- Key id of an undirected edge's first endpoint field. -/
def VERTEX_A_KEY_ID : Nat := key_hash "_vertex_a"

/-- Key id of an undirected edge's second endpoint field. -/
def VERTEX_B_KEY_ID : Nat := key_hash "_vertex_b"

/-- Modelled from the spec: `edge::from_id(owner, slot_field, schema_id,
schemas, txn, id)`.  Resolves the edge schema; a with-body edge reads its
cell (its absence is a read error, a schema mismatch a wrong schema); a
bodyless edge is synthesised from the list entry. -/
def edge_from_id (owner : Id) (slot_field : Nat) (schema_id : Nat)
    (schemas : SchemaContainer) (store : Store) (id : Id) :
    Except EdgeError Edge :=
  match schemas.schema_type schema_id with
  | none => .error EdgeError.CannotFindSchema
  | some (SchemaType.Edge ea) =>
      if ea.has_body then
        match store.read_cell id with
        | none => .error EdgeError.ReadError
        | some cell =>
            if cell.schema_id ≠ schema_id then .error EdgeError.WrongSchema
            else
              match ea.edge_type with
              | EdgeType.Directed => .ok (Edge.Directed cell)
              | EdgeType.Undirected => .ok (Edge.Undirected cell)
      else .ok (Edge.Simple owner slot_field schema_id id)
  | some _ => .error EdgeError.WrongSchema

/-- Modelled from the spec: `one_opposite_id_vertex_id(v)`: the opposite
endpoint of `v` on this edge, `none` when `v` is not an endpoint or the
endpoint fields are corrupt. -/
def Edge.one_opposite_id_vertex_id (e : Edge) (v : Id) : Option Id :=
  match e with
  | Edge.Directed cell =>
      match cell.get_id_field VERTEX_FROM_KEY_ID,
            cell.get_id_field VERTEX_TO_KEY_ID with
      | some f, some t =>
          if v = f then some t else if v = t then some f else none
      | _, _ => none
  | Edge.Undirected cell =>
      match cell.get_id_field VERTEX_A_KEY_ID,
            cell.get_id_field VERTEX_B_KEY_ID with
      | some a, some b =>
          if v = a then some b else if v = b then some a else none
      | _, _ => none
  | Edge.Simple owner _ _ other =>
      if v = owner then some other else if v = other then some owner else none

/-- The map body of an edge's cell, when it has one. -/
def Edge.body_map : Edge → Option MapB
  | Edge.Directed c | Edge.Undirected c =>
      match c.data with
      | Value.MapV m => some m
      | _ => none
  | Edge.Simple _ _ _ _ => none

/-- Modelled from the spec: the parsed filter language (external "Expr"
contract): a symbolic expression evaluates against an edge (and optionally a
vertex) to true, false or an evaluation error. -/
inductive SExpr where
  | constBool (b : Bool)
  | evalError (msg : String)
  | edgeHasField (k : Nat)
  | vertexHasField (k : Nat)
deriving DecidableEq, Repr

/-- Evaluate one expression with only the edge in scope. -/
def evalEdgeExpr (e : Edge) : SExpr → Except String Bool
  | SExpr.constBool b => .ok b
  | SExpr.evalError m => .error m
  | SExpr.edgeHasField k =>
      .ok (match e.body_map with
           | some m => (getKeyId m k).isSome
           | none => false)
  | SExpr.vertexHasField _ => .error "vertex not in scope"

/-- Evaluate a sequence of expressions with the edge in scope: the first
evaluation error propagates; otherwise the conjunction of the results. -/
def evalEdgeExprs (e : Edge) : List SExpr → Except String Bool
  | [] => .ok true
  | x :: xs =>
      match evalEdgeExpr e x with
      | .error m => .error m
      | .ok b =>
          match evalEdgeExprs e xs with
          | .error m => .error m
          | .ok b2 => .ok (b && b2)

/-- Modelled from the spec: `Tester::eval_with_edge`: no filter means every
item passes. -/
def Tester.eval_with_edge (filter : Option (List SExpr)) (e : Edge) :
    Except String Bool :=
  match filter with
  | none => .ok true
  | some es => evalEdgeExprs e es

/-- Evaluate one expression with both vertex and edge in scope. -/
def evalVertexEdgeExpr (v : Vertex) (e : Edge) : SExpr → Except String Bool
  | SExpr.vertexHasField k =>
      .ok (match v.cell.data with
           | Value.MapV m => (getKeyId m k).isSome
           | _ => false)
  | x => evalEdgeExpr e x

/-- Evaluate a sequence of expressions with vertex and edge in scope. -/
def evalVertexEdgeExprs (v : Vertex) (e : Edge) : List SExpr → Except String Bool
  | [] => .ok true
  | x :: xs =>
      match evalVertexEdgeExpr v e x with
      | .error m => .error m
      | .ok b =>
          match evalVertexEdgeExprs v e xs with
          | .error m => .error m
          | .ok b2 => .ok (b && b2)

/-- Modelled from the spec: `Tester::eval_with_edge_and_vertex`. -/
def Tester.eval_with_edge_and_vertex (filter : Option (List SExpr))
    (v : Vertex) (e : Edge) : Except String Bool :=
  match filter with
  | none => .ok true
  | some es => evalVertexEdgeExprs v e es

/-- graph/mod.rs `LinkVerticesError`. -/
inductive LinkVerticesError where
  | EdgeSchemaNotFound
  | SchemaNotEdge
  | BodyRequired
  | BodyShouldNotExisted
  | EdgeError (e : EdgeError)
deriving DecidableEq, Repr

/-- graph/mod.rs `NeighbourhoodError`. -/
inductive NeighbourhoodError where
  | EdgeError (e : EdgeError)
  | VertexNotFound (id : Id)
  | CannotFindOppositeId (id : Id)
  | FilterEvalError (msg : String)
deriving DecidableEq, Repr

/-- Modelled from the spec: graph/vertex.rs `RemoveError` (the file is not
in the staged sources): removing an absent vertex reports `VertexNotFound`. -/
inductive RemoveError where
  | VertexNotFound
deriving DecidableEq, Repr

/-- graph/mod.rs `GraphTransaction::edges` inner loop: reconstruct each
listed id into an edge, evaluate the filter on it and collect the passing
edges in iteration order; the first reconstruction or evaluation failure
aborts the whole operation with no partial result. -/
def edgesLoop (schemas : SchemaContainer) (store : Store) (vertex_id : Id)
    (vertex_field schema_id : Nat) (filter : Option (List SExpr)) :
    List Id → Except EdgeError (List Edge)
  | [] => .ok []
  | id :: rest =>
      match edge_from_id vertex_id vertex_field schema_id schemas store id with
      | .error er => .error er
      | .ok e =>
          match Tester.eval_with_edge filter e with
          | .ok true =>
              (edgesLoop schemas store vertex_id vertex_field schema_id filter rest).map
                (fun es => e :: es)
          | .ok false => edgesLoop schemas store vertex_id vertex_field schema_id filter rest
          | .error err => .error (EdgeError.FilterEvalError err)

/-- graph/mod.rs `GraphTransaction::edges`: iterate the id-list addressed by
`(vertex, slot field of the direction, schema)` and run the collection loop. -/
def txn_edges (schemas : SchemaContainer) (store : Store) (vertex : Id)
    (schema : SchemaRef) (ed : EdgeDirection) (filter : Option (List SExpr)) :
    Except TxnError (Except EdgeError (List Edge)) :=
  let vertex_field := ed.as_field
  let schema_id := schema.to_id schemas
  match IdList.iter store vertex vertex_field schema_id with
  | .error e => .ok (.error (EdgeError.IdListError e))
  | .ok ids => .ok (edgesLoop schemas store vertex vertex_field schema_id filter ids)

/-- The per-id step of `GraphTransaction::neighbourhoods`: reconstruct the
edge, determine the opposite endpoint of the queried vertex (its absence is
`CannotFindOppositeId` carrying the queried vertex's id, as in the source)
and read the opposite vertex cell (its absence is `VertexNotFound` carrying
the opposite id). -/
def neighbourResolve (schemas : SchemaContainer) (store : Store)
    (vertex_id : Id) (vertex_field schema_id : Nat) (id : Id) :
    Except NeighbourhoodError (Vertex × Edge) :=
  match edge_from_id vertex_id vertex_field schema_id schemas store id with
  | .error edge_error => .error (NeighbourhoodError.EdgeError edge_error)
  | .ok edge =>
      match edge.one_opposite_id_vertex_id vertex_id with
      | none => .error (NeighbourhoodError.CannotFindOppositeId vertex_id)
      | some opposite_id =>
          match store.read_cell opposite_id with
          | none => .error (NeighbourhoodError.VertexNotFound opposite_id)
          | some c => .ok (cell_to_vertex c, edge)

/-- graph/mod.rs `GraphTransaction::neighbourhoods` inner loop: resolve each
listed id to its (opposite vertex, edge) pair, evaluate the filter with both
in scope, and collect the passing pairs in iteration order; the first
failure aborts the whole operation. -/
def neighbourhoodsLoop (schemas : SchemaContainer) (store : Store)
    (vertex_id : Id) (vertex_field schema_id : Nat)
    (filter : Option (List SExpr)) :
    List Id → Except NeighbourhoodError (List (Vertex × Edge))
  | [] => .ok []
  | id :: rest =>
      match neighbourResolve schemas store vertex_id vertex_field schema_id id with
      | .error e => .error e
      | .ok (vertex, edge) =>
          match Tester.eval_with_edge_and_vertex filter vertex edge with
          | .ok true =>
              (neighbourhoodsLoop schemas store vertex_id vertex_field schema_id filter rest).map
                (fun ps => (vertex, edge) :: ps)
          | .ok false =>
              neighbourhoodsLoop schemas store vertex_id vertex_field schema_id filter rest
          | .error err => .error (NeighbourhoodError.FilterEvalError err)

/-- graph/mod.rs `GraphTransaction::neighbourhoods`. -/
def txn_neighbourhoods (schemas : SchemaContainer) (store : Store)
    (vertex : Id) (schema : SchemaRef) (ed : EdgeDirection)
    (filter : Option (List SExpr)) :
    Except TxnError (Except NeighbourhoodError (List (Vertex × Edge))) :=
  let vertex_field := ed.as_field
  let schema_id := schema.to_id schemas
  match IdList.iter store vertex vertex_field schema_id with
  | .error e => .ok (.error (NeighbourhoodError.EdgeError (EdgeError.IdListError e)))
  | .ok ids =>
      .ok (neighbourhoodsLoop schemas store vertex vertex_field schema_id filter ids)

/-- graph/mod.rs `edge_attr_from_schema`: resolve a schema reference to its
id and edge attributes, rejecting unknown ids (`CannotFindSchema`) and
non-edge schemas (`WrongSchema`). -/
def edge_attr_from_schema (schema : SchemaRef) (schemas : SchemaContainer) :
    Except EdgeError (Nat × EdgeAttributes) :=
  let schema_id := schema.to_id schemas
  match schemas.schema_type schema_id with
  | some (SchemaType.Edge ea) => .ok (schema_id, ea)
  | some _ => .error EdgeError.WrongSchema
  | none => .error EdgeError.CannotFindSchema

/-- graph/mod.rs `GraphTransaction::degree`: resolve the edge attributes
first (unlike `edges`), then count the id-list without materialising it. -/
def txn_degree (schemas : SchemaContainer) (store : Store) (vertex : Id)
    (schema : SchemaRef) (ed : EdgeDirection) :
    Except TxnError (Except EdgeError Nat) :=
  match edge_attr_from_schema schema schemas with
  | .error e => .ok (.error e)
  | .ok (schema_id, _) =>
      let vertex_field := ed.as_field
      match IdList.count store vertex vertex_field schema_id with
      | .error e => .ok (.error (EdgeError.IdListError e))
      | .ok count => .ok (.ok count)

/-- graph/mod.rs `GraphTransaction::new_vertex`: translate to a cell (domain
failures stay inner) and write it inside the transaction; the returned
vertex is rebuilt from the written cell. -/
def txn_new_vertex (schemas : SchemaContainer) (store : Store)
    (schema : SchemaRef) (data : MapB) :
    Except TxnError ((Except NewVertexError Vertex) × Store) :=
  let vertex := Vertex.new (schema.to_id schemas) data
  match vertex_to_cell_for_write schemas vertex with
  | .error e => .ok (.error e, store)
  | .ok cell =>
      match txnWrite store cell with
      | .error te => .error te
      | .ok s2 => .ok (.ok (cell_to_vertex cell), s2)

/-- GraphInner::new_vertex (the facade variant): translate to a cell, write
it through the non-transactional Store write, stamp the returned Store-filled
header onto the cell and rebuild the vertex from it. -/
def graph_new_vertex (schemas : SchemaContainer) (store : Store)
    (schema : SchemaRef) (data : MapB) :
    (Except NewVertexError Vertex) × Store :=
  let vertex := Vertex.new (schema.to_id schemas) data
  match vertex_to_cell_for_write schemas vertex with
  | .error e => (.error e, store)
  | .ok cell =>
      match store.write_cell cell with
      | (.error _, s2) => (.error NewVertexError.WriteError, s2)
      | (.ok header, s2) => (.ok (cell_to_vertex ⟨cell.schema_id, header, cell.data⟩), s2)

/-- Modelled from the spec: the body of `link` for a with-body edge (the
edge impl files are not in the staged sources): write the edge cell with the
two endpoint fields injected, then append the edge's id to the two adjacency
lists named by the slot fields.  Id-list failures surface as `EdgeError`. -/
def linkWithBody (store : Store) (schema_id : Nat) (from_id to_id : Id)
    (from_key to_key from_slot to_slot : Nat) (body : MapB)
    (mk : Cell → Edge) : Except TxnError ((Except EdgeError Edge) × Store) :=
  let data := Value.MapV
    (insertKeyId (insertKeyId body from_key (Value.IdV from_id)) to_key (Value.IdV to_id))
  let cell : Cell := ⟨schema_id, ⟨assignedId schema_id data, 0⟩, data⟩
  match txnWrite store cell with
  | .error te => .error te
  | .ok s1 =>
      match IdList.append s1 from_id from_slot schema_id cell.header.id with
      | .error e => .ok (.error (EdgeError.IdListError e), s1)
      | .ok s2 =>
          match IdList.append s2 to_id to_slot schema_id cell.header.id with
          | .error e => .ok (.error (EdgeError.IdListError e), s2)
          | .ok s3 => .ok (.ok (mk cell), s3)

/-- Modelled from the spec: the body of `link` for a simple (bodyless) edge:
append the opposite vertex ids to the two adjacency lists; no cell is
written; a synthetic edge is returned. -/
def linkSimple (store : Store) (schema_id : Nat) (from_id to_id : Id)
    (from_slot to_slot : Nat) : Except TxnError ((Except EdgeError Edge) × Store) :=
  match IdList.append store from_id from_slot schema_id to_id with
  | .error e => .ok (.error (EdgeError.IdListError e), store)
  | .ok s1 =>
      match IdList.append s1 to_id to_slot schema_id from_id with
      | .error e => .ok (.error (EdgeError.IdListError e), s1)
      | .ok s2 => .ok (.ok (Edge.Simple from_id from_slot schema_id to_id), s2)

/-- graph/mod.rs `GraphTransaction::link`: resolve the schema type, failing
with `EdgeSchemaNotFound` for an unknown id and `SchemaNotEdge` for a
non-edge schema before anything is written; then (modelled from the spec,
the edge impl files being absent) check body presence against `has_body` and
dispatch on the edge type. -/
def txn_link (schemas : SchemaContainer) (store : Store) (from_id : Id)
    (schema : SchemaRef) (to_id : Id) (body : Option MapB) :
    Except TxnError ((Except LinkVerticesError Edge) × Store) :=
  let schema_id := schema.to_id schemas
  match schemas.schema_type schema_id with
  | none => .ok (.error LinkVerticesError.EdgeSchemaNotFound, store)
  | some (SchemaType.Edge edge_attr) =>
      match body with
      | some b =>
          if !edge_attr.has_body then
            .ok (.error LinkVerticesError.BodyShouldNotExisted, store)
          else
            let step :=
              match edge_attr.edge_type with
              | EdgeType.Directed =>
                  linkWithBody store schema_id from_id to_id
                    VERTEX_FROM_KEY_ID VERTEX_TO_KEY_ID
                    OUTBOUND_KEY_ID INBOUND_KEY_ID b Edge.Directed
              | EdgeType.Undirected =>
                  linkWithBody store schema_id from_id to_id
                    VERTEX_A_KEY_ID VERTEX_B_KEY_ID
                    UNDIRECTED_KEY_ID UNDIRECTED_KEY_ID b Edge.Undirected
            match step with
            | .error te => .error te
            | .ok (.error e, s2) => .ok (.error (LinkVerticesError.EdgeError e), s2)
            | .ok (.ok edge, s2) => .ok (.ok edge, s2)
      | none =>
          if edge_attr.has_body then
            .ok (.error LinkVerticesError.BodyRequired, store)
          else
            let step :=
              match edge_attr.edge_type with
              | EdgeType.Directed =>
                  linkSimple store schema_id from_id to_id OUTBOUND_KEY_ID INBOUND_KEY_ID
              | EdgeType.Undirected =>
                  linkSimple store schema_id from_id to_id UNDIRECTED_KEY_ID UNDIRECTED_KEY_ID
            match step with
            | .error te => .error te
            | .ok (.error e, s2) => .ok (.error (LinkVerticesError.EdgeError e), s2)
            | .ok (.ok edge, s2) => .ok (.ok edge, s2)
  | some _ => .ok (.error LinkVerticesError.SchemaNotEdge, store)

/-- The slot an edge's entry occupies on the opposite endpoint:
inbound and outbound mirror each other, undirected mirrors itself. -/
def complementSlot (slot : Nat) : Nat :=
  if slot = INBOUND_KEY_ID then OUTBOUND_KEY_ID
  else if slot = OUTBOUND_KEY_ID then INBOUND_KEY_ID
  else UNDIRECTED_KEY_ID

/-- Collect the `(schema id, chain head)` pairs of a slot's typed list;
best effort, stopping at malformed nodes. -/
def collectTypedEntries (store : Store) : Nat → Id → List (Nat × Id)
  | 0, _ => []
  | fuel + 1, node =>
      if node = Id.unit_id then []
      else
        match store.read_cell node with
        | none => []
        | some c =>
            match c.get_u64_field TYPE_KEY_ID, c.get_id_field VALUE_KEY_ID,
                  c.get_id_field NEXT_KEY_ID with
            | some t, some v, some nxt => (t, v) :: collectTypedEntries store fuel nxt
            | _, _, _ => []

/-- Collect the node cell ids of a plain chain (for reclamation);
best effort. -/
def chainNodeIds (store : Store) : Nat → Id → List Id
  | 0, _ => []
  | fuel + 1, head =>
      if head = Id.unit_id then []
      else
        match store.read_cell head with
        | none => []
        | some c =>
            match c.get_id_field NEXT_KEY_ID with
            | some nxt => head :: chainNodeIds store fuel nxt
            | none => [head]

/-- Collect the node cell ids of a typed chain (for reclamation);
best effort. -/
def typedNodeIds (store : Store) : Nat → Id → List Id
  | 0, _ => []
  | fuel + 1, node =>
      if node = Id.unit_id then []
      else
        match store.read_cell node with
        | none => []
        | some c =>
            match c.get_id_field NEXT_KEY_ID with
            | some nxt => node :: typedNodeIds store fuel nxt
            | none => [node]

/-- Modelled from the spec: undo the opposite half of one adjacency entry of
`v` during a cascade: a with-body edge has its id removed from the opposite
endpoint's complementary list and its cell deleted; a simple entry (the
opposite vertex id itself) has `v` removed from the opposite vertex's
complementary list. -/
def removeIncidentEntry (schemas : SchemaContainer) (store : Store) (v : Id)
    (slot schema_id : Nat) (entry : Id) : Store :=
  match schemas.schema_type schema_id with
  | some (SchemaType.Edge ea) =>
      if ea.has_body then
        match store.read_cell entry with
        | none => store
        | some ecell =>
            let edge :=
              match ea.edge_type with
              | EdgeType.Directed => Edge.Directed ecell
              | EdgeType.Undirected => Edge.Undirected ecell
            match edge.one_opposite_id_vertex_id v with
            | none => store.remove_cell entry
            | some opp =>
                (IdList.remove_entry store opp (complementSlot slot) schema_id entry).remove_cell
                  entry
      else IdList.remove_entry store entry (complementSlot slot) schema_id v
  | _ => store

/-- Modelled from the spec: drain one slot of a vertex during
`remove_vertex`: for every edge schema present, undo the opposite halves of
all entries and reclaim the vertex's own list node cells. -/
def drainSlot (schemas : SchemaContainer) (store : Store) (v : Id)
    (slot : Nat) : Store :=
  match store.read_cell v with
  | none => store
  | some vcell =>
      match vcell.get_id_field slot with
      | none => store
      | some head =>
          if head = Id.unit_id then store
          else
            let typed := collectTypedEntries store store.fuel head
            let s1 := typed.foldl
              (fun st p =>
                let ids :=
                  match walkIdChain st st.fuel p.2 with
                  | .ok l => l
                  | .error _ => []
                ids.foldl (fun st2 e => removeIncidentEntry schemas st2 v slot p.1 e) st)
              store
            let s2 := typed.foldl
              (fun st p => (chainNodeIds st st.fuel p.2).foldl Store.remove_cell st) s1
            (typedNodeIds s2 s2.fuel head).foldl Store.remove_cell s2

/-- Modelled from the spec: graph/vertex.rs `txn_remove`
(`GraphTransaction::remove_vertex`): an absent vertex is the domain error
`VertexNotFound`; otherwise all three slots are drained (restoring
referential symmetry) and the vertex cell deleted. -/
def txn_remove_vertex (schemas : SchemaContainer) (store : Store) (v : Id) :
    Except TxnError ((Except RemoveError Unit) × Store) :=
  match store.read_cell v with
  | none => .ok (.error RemoveError.VertexNotFound, store)
  | some _ =>
      let s1 := drainSlot schemas store v INBOUND_KEY_ID
      let s2 := drainSlot schemas s1 v OUTBOUND_KEY_ID
      let s3 := drainSlot schemas s2 v UNDIRECTED_KEY_ID
      .ok (.ok (), s3.remove_cell v)

/-- GraphInner::graph_transaction: run the closure against the store; an
`Err` from the closure aborts (nothing commits), an `Ok` commits the
closure's writes.  Conflict-driven retries re-run the closure and are
invisible in this sequential model. -/
def graph_transaction {α : Type} (store : Store)
    (f : Store → Except TxnError (α × Store)) : Except TxnError (α × Store) :=
  f store

/-- GraphInner::link (the facade variant): the transactional `link` run
inside `graph_transaction`; domain errors stay in the inner result. -/
def graph_link (schemas : SchemaContainer) (store : Store) (from_id : Id)
    (schema : SchemaRef) (to_id : Id) (body : Option MapB) :
    Except TxnError ((Except LinkVerticesError Edge) × Store) :=
  graph_transaction store (fun st => txn_link schemas st from_id schema to_id body)

/-- GraphInner::remove_vertex (the facade variant): the closure maps any
inner (domain) error of the transactional removal to `TxnError::Aborted(None)`,
so a domain failure aborts the transaction instead of staying inner. -/
def graph_remove_vertex (schemas : SchemaContainer) (store : Store) (v : Id) :
    Except TxnError (Unit × Store) :=
  graph_transaction store (fun st =>
    match txn_remove_vertex schemas st v with
    | .error te => .error te
    | .ok (.error _, _) => .error (TxnError.Aborted none)
    | .ok (.ok _, s2) => .ok ((), s2))

/-- Whether a cell's three adjacency slots are present and hold `UNIT_ID`
(invariant V1 on a freshly written vertex). -/
def cellSlotsAreUnit (c : Cell) : Bool :=
  decide (c.get_id_field INBOUND_KEY_ID = some Id.unit_id) &&
  decide (c.get_id_field OUTBOUND_KEY_ID = some Id.unit_id) &&
  decide (c.get_id_field UNDIRECTED_KEY_ID = some Id.unit_id)

/-- The map with the three adjacency slot fields injected (all `UNIT_ID`),
as `vertex_to_cell_for_write` builds it. -/
def injectSlots (m : MapB) : MapB :=
  insertKeyId
    (insertKeyId (insertKeyId m INBOUND_KEY_ID (Value.IdV Id.unit_id))
      OUTBOUND_KEY_ID (Value.IdV Id.unit_id))
    UNDIRECTED_KEY_ID (Value.IdV Id.unit_id)

/-- Reconstruct every listed id in order, stopping at the first failure:
the reconstruction half of the `edges` loop, used to state its contract. -/
def reconstructAll (schemas : SchemaContainer) (store : Store) (vertex_id : Id)
    (vertex_field schema_id : Nat) : List Id → Except EdgeError (List Edge)
  | [] => .ok []
  | id :: rest =>
      match edge_from_id vertex_id vertex_field schema_id schemas store id with
      | .error e => .error e
      | .ok edge =>
          (reconstructAll schemas store vertex_id vertex_field schema_id rest).map
            (fun es => edge :: es)

/-- Resolve every listed id to its (opposite vertex, edge) pair in order,
stopping at the first failure: the resolution half of the `neighbourhoods`
loop, used to state its contract. -/
def resolveAll (schemas : SchemaContainer) (store : Store) (vertex_id : Id)
    (vertex_field schema_id : Nat) : List Id → Except NeighbourhoodError (List (Vertex × Edge))
  | [] => .ok []
  | id :: rest =>
      match neighbourResolve schemas store vertex_id vertex_field schema_id id with
      | .error e => .error e
      | .ok p =>
          (resolveAll schemas store vertex_id vertex_field schema_id rest).map
            (fun ps => p :: ps)

/-! ## Concrete fixtures used by witnesses and counterexamples -/

/-- A vertex id used in concrete scenarios. -/
def vA : Id := ⟨5, 1⟩

/-- A second vertex id used in concrete scenarios. -/
def vB : Id := ⟨5, 2⟩

/-- A vertex cell with the three slots present and empty. -/
def bareVertexCell (i : Id) : Cell :=
  ⟨10, ⟨i, 1⟩,
   Value.MapV [(INBOUND_KEY_ID, Value.IdV Id.unit_id),
               (OUTBOUND_KEY_ID, Value.IdV Id.unit_id),
               (UNDIRECTED_KEY_ID, Value.IdV Id.unit_id)]⟩

/-- A store holding the single empty vertex `vA`. -/
def storeOneVertex : Store := ⟨[(vA, bareVertexCell vA)], 0⟩

/-- A registry where 10 is a vertex schema and 7 a simple undirected edge
schema; ids like 99 are unregistered. -/
def schemasA : SchemaContainer :=
  ⟨[(10, SchemaType.Vertex),
    (7, SchemaType.Edge ⟨EdgeType.Undirected, false⟩)],
   [(10, ⟨10, "person", none,
          Field.new "*" 0 false false (some (VERTEX_TEMPLATE ++ [Field.new "name" 1 false false none])),
          false⟩)],
   [("person", 10)]⟩

/-- The id of the typed list node in the linked fixture. -/
def tNode : Id := ⟨900, 1⟩

/-- The id of the plain list node in the linked fixture. -/
def nNode : Id := ⟨900, 2⟩

/-- The vertex cell of `vA` with its outbound slot pointing at the typed
list node. -/
def vertexAWithOut : Cell :=
  ⟨10, ⟨vA, 1⟩,
   Value.MapV [(INBOUND_KEY_ID, Value.IdV Id.unit_id),
               (OUTBOUND_KEY_ID, Value.IdV tNode),
               (UNDIRECTED_KEY_ID, Value.IdV Id.unit_id)]⟩

/-- A registry extending `schemasA` with 8, a simple directed edge schema. -/
def schemasB : SchemaContainer :=
  ⟨[(10, SchemaType.Vertex),
    (7, SchemaType.Edge ⟨EdgeType.Undirected, false⟩),
    (8, SchemaType.Edge ⟨EdgeType.Directed, false⟩)],
   [(10, ⟨10, "person", none,
          Field.new "*" 0 false false (some (VERTEX_TEMPLATE ++ [Field.new "name" 1 false false none])),
          false⟩)],
   [("person", 10)]⟩

/-- A store where `vA` has one committed simple outbound edge (under schema
8) towards `vB`: the outbound slot holds a typed node for schema 8 whose
chain holds the single entry `vB`. -/
def storeLinked : Store :=
  ⟨[(vA, vertexAWithOut),
    (vB, bareVertexCell vB),
    (tNode, mkTypeListNode tNode Id.unit_id nNode 8),
    (nNode, mkIdListNode nNode Id.unit_id vB)], 0⟩

/-- Like `storeLinked` but with the opposite vertex cell `vB` missing. -/
def storeNoOpp : Store :=
  ⟨[(vA, vertexAWithOut),
    (tNode, mkTypeListNode tNode Id.unit_id nNode 8),
    (nNode, mkIdListNode nNode Id.unit_id vB)], 0⟩

/-- The id of a corrupt with-body edge cell. -/
def eCell : Id := ⟨5, 3⟩

/-- Typed list node id for the corrupt-edge fixture. -/
def t9 : Id := ⟨900, 3⟩

/-- Plain list node id for the corrupt-edge fixture. -/
def n9 : Id := ⟨900, 4⟩

/-- The vertex cell of `vA` whose outbound slot points at the typed node of
the corrupt-edge fixture. -/
def vertexAWithOut9 : Cell :=
  ⟨10, ⟨vA, 1⟩,
   Value.MapV [(INBOUND_KEY_ID, Value.IdV Id.unit_id),
               (OUTBOUND_KEY_ID, Value.IdV t9),
               (UNDIRECTED_KEY_ID, Value.IdV Id.unit_id)]⟩

/-- A registry extending `schemasB` with 9, a directed with-body edge schema. -/
def schemasC : SchemaContainer :=
  ⟨[(10, SchemaType.Vertex),
    (7, SchemaType.Edge ⟨EdgeType.Undirected, false⟩),
    (8, SchemaType.Edge ⟨EdgeType.Directed, false⟩),
    (9, SchemaType.Edge ⟨EdgeType.Directed, true⟩)],
   [], []⟩

/-- A store where `vA`'s outbound list under schema 9 holds one with-body
edge cell whose endpoint fields are missing (corrupt data). -/
def storeCorrupt : Store :=
  ⟨[(vA, vertexAWithOut9),
    (t9, mkTypeListNode t9 Id.unit_id n9 9),
    (n9, mkIdListNode n9 Id.unit_id eCell),
    (eCell, ⟨9, ⟨eCell, 1⟩, Value.MapV []⟩)], 0⟩

/-! ## Supporting lemmas -/

/-- Counting a plain chain agrees with the length of walking it. -/
theorem countIdChain_eq_walk (store : Store) :
    ∀ (fuel : Nat) (head : Id),
      countIdChain store fuel head = (walkIdChain store fuel head).map List.length := by
  intro fuel
  induction fuel with
  | zero => intro head; rfl
  | succ n ih =>
      intro head
      unfold countIdChain walkIdChain
      split
      · rfl
      · split
        · rfl
        · split
          · rfl
          · split
            · cases hw : walkIdChain store n _ with
              | error e => simp [ih, hw, Except.map]
              | ok l => simp [ih, hw, Except.map]
            · rfl

/-- `IdList::count` agrees with the length of `IdList::iter` on every state:
the degree of a list is the number of entries an iteration would yield. -/
theorem count_eq_iter_length (store : Store) (owner : Id)
    (slot_field schema_id : Nat) :
    IdList.count store owner slot_field schema_id =
      (IdList.iter store owner slot_field schema_id).map List.length := by
  unfold IdList.count IdList.iter
  split
  · rfl
  · split
    · rfl
    · split
      · rfl
      · split
        · rfl
        · rfl
        · split
          · rfl
          · exact countIdChain_eq_walk store store.fuel _

/-- With no filter every reconstructed edge is collected, so a successful
`edges` loop yields exactly one edge per listed id. -/
theorem edgesLoop_none_length (schemas : SchemaContainer) (store : Store)
    (vid : Id) (field sid : Nat) :
    ∀ (ids : List Id) (es : List Edge),
      edgesLoop schemas store vid field sid none ids = .ok es →
      es.length = ids.length := by
  intro ids
  induction ids with
  | nil =>
      intro es h
      unfold edgesLoop at h
      injection h with h2
      subst h2
      rfl
  | cons id rest ih =>
      intro es h
      unfold edgesLoop at h
      cases hr : edge_from_id vid field sid schemas store id with
      | error e => rw [hr] at h; exact absurd h (by simp)
      | ok e =>
          rw [hr] at h
          simp only [Tester.eval_with_edge] at h
          cases hl : edgesLoop schemas store vid field sid none rest with
          | error e2 => rw [hl] at h; exact absurd h (by simp [Except.map])
          | ok tail =>
              rw [hl] at h
              simp only [Except.map] at h
              injection h with h2
              subst h2
              simp [ih tail hl]

/-- Replacing an existing binding puts `(k, v)` where the first `k` entry was. -/
theorem find?_map_replace (k : Nat) (v : Value) :
    ∀ m : MapB, m.any (fun p => decide (p.1 = k)) = true →
      (m.map (fun p => if p.1 = k then (k, v) else p)).find?
          (fun p => decide (p.1 = k)) = some (k, v) := by
  intro m
  induction m with
  | nil => intro h; simp at h
  | cons p rest ih =>
      intro h
      rw [List.map_cons]
      by_cases hp : p.1 = k
      · rw [if_pos hp, List.find?_cons_of_pos _ (by simp)]
      · rw [if_neg hp, List.find?_cons_of_neg _ (by simp [hp])]
        apply ih
        simpa [List.any_cons, hp] using h

/-- Appending `(k, v)` to a map with no `k` entry makes it the found entry. -/
theorem find?_append_missing (k : Nat) (v : Value) :
    ∀ m : MapB, m.any (fun p => decide (p.1 = k)) = false →
      (m ++ [(k, v)]).find? (fun p => decide (p.1 = k)) = some (k, v) := by
  intro m
  induction m with
  | nil => intro _; rw [List.nil_append, List.find?_cons_of_pos _ (by simp)]
  | cons p rest ih =>
      intro h
      simp only [List.any_cons, Bool.or_eq_false_iff] at h
      rw [List.cons_append, List.find?_cons_of_neg _ (by simp [h.1])]
      exact ih h.2

/-- Looking up the inserted key finds the inserted value. -/
theorem getKeyId_insert_self (m : MapB) (k : Nat) (v : Value) :
    getKeyId (insertKeyId m k v) k = some v := by
  unfold insertKeyId getKeyId
  by_cases h : m.any (fun p => decide (p.1 = k)) = true
  · rw [if_pos h, find?_map_replace k v m h]
    rfl
  · rw [if_neg h, find?_append_missing k v m (eq_false_of_ne_true h)]
    rfl

/-- Replacement under key `k` leaves lookups of other keys unchanged. -/
theorem find?_map_ne (k k2 : Nat) (v : Value) (hne : k2 ≠ k) :
    ∀ m : MapB,
      (m.map (fun p => if p.1 = k then (k, v) else p)).find?
          (fun p => decide (p.1 = k2)) =
        m.find? (fun p => decide (p.1 = k2)) := by
  intro m
  induction m with
  | nil => rfl
  | cons p rest ih =>
      rw [List.map_cons]
      by_cases hp : p.1 = k
      · rw [if_pos hp,
            List.find?_cons_of_neg _ (by simp [Ne.symm hne]),
            List.find?_cons_of_neg _ (by simp [hp, Ne.symm hne])]
        exact ih
      · rw [if_neg hp]
        by_cases hp2 : p.1 = k2
        · rw [List.find?_cons_of_pos _ (by simp [hp2]),
              List.find?_cons_of_pos _ (by simp [hp2])]
        · rw [List.find?_cons_of_neg _ (by simp [hp2]),
              List.find?_cons_of_neg _ (by simp [hp2])]
          exact ih

/-- Appending under key `k` leaves lookups of other keys unchanged. -/
theorem find?_append_ne (k k2 : Nat) (v : Value) (hne : k2 ≠ k) :
    ∀ m : MapB,
      (m ++ [(k, v)]).find? (fun p => decide (p.1 = k2)) =
        m.find? (fun p => decide (p.1 = k2)) := by
  intro m
  induction m with
  | nil =>
      rw [List.nil_append, List.find?_cons_of_neg _ (by simp [Ne.symm hne])]
  | cons p rest ih =>
      by_cases hp2 : p.1 = k2
      · rw [List.cons_append,
            List.find?_cons_of_pos _ (by simp [hp2]),
            List.find?_cons_of_pos _ (by simp [hp2])]
      · rw [List.cons_append,
            List.find?_cons_of_neg _ (by simp [hp2]),
            List.find?_cons_of_neg _ (by simp [hp2])]
        exact ih

/-- Inserting under one key does not disturb lookups of a different key. -/
theorem getKeyId_insert_ne (m : MapB) (k k2 : Nat) (v : Value) (hne : k2 ≠ k) :
    getKeyId (insertKeyId m k v) k2 = getKeyId m k2 := by
  unfold insertKeyId getKeyId
  by_cases h : m.any (fun p => decide (p.1 = k)) = true
  · rw [if_pos h, find?_map_ne k k2 v hne m]
  · rw [if_neg h, find?_append_ne k k2 v hne m]

/-- The three slot key ids are pairwise distinct. -/
theorem slot_keys_distinct :
    INBOUND_KEY_ID ≠ OUTBOUND_KEY_ID ∧
    INBOUND_KEY_ID ≠ UNDIRECTED_KEY_ID ∧
    OUTBOUND_KEY_ID ≠ UNDIRECTED_KEY_ID := by
  refine ⟨?_, ?_, ?_⟩ <;> decide

/-- A cell produced by `vertex_to_cell_for_write` carries the three slot
fields, all holding `UNIT_ID`. -/
theorem vertex_to_cell_slots_unit (schemas : SchemaContainer) (v : Vertex)
    (cell : Cell) (h : vertex_to_cell_for_write schemas v = .ok cell) :
    cellSlotsAreUnit cell = true := by
  unfold vertex_to_cell_for_write at h
  dsimp only at h
  split at h
  · exact absurd h (by simp)
  · split at h
    · exact absurd h (by simp)
    · split at h
      · exact absurd h (by simp)
      next neb_schema heq2 =>
        split at h
        next m heqd =>
          split at h
          next c heqc =>
            injection h with h2
            subst h2
            unfold Cell.new at heqc
            dsimp only at heqc
            split at heqc
            · injection heqc with h3
              subst h3
              unfold cellSlotsAreUnit Cell.get_id_field
              dsimp only
              rw [show getKeyId
                    (insertKeyId
                      (insertKeyId (insertKeyId m INBOUND_KEY_ID (Value.IdV Id.unit_id))
                        OUTBOUND_KEY_ID (Value.IdV Id.unit_id))
                      UNDIRECTED_KEY_ID (Value.IdV Id.unit_id)) INBOUND_KEY_ID =
                  some (Value.IdV Id.unit_id) from by
                rw [getKeyId_insert_ne _ _ _ _ slot_keys_distinct.2.1,
                    getKeyId_insert_ne _ _ _ _ slot_keys_distinct.1,
                    getKeyId_insert_self]]
              rw [show getKeyId
                    (insertKeyId
                      (insertKeyId (insertKeyId m INBOUND_KEY_ID (Value.IdV Id.unit_id))
                        OUTBOUND_KEY_ID (Value.IdV Id.unit_id))
                      UNDIRECTED_KEY_ID (Value.IdV Id.unit_id)) OUTBOUND_KEY_ID =
                  some (Value.IdV Id.unit_id) from by
                rw [getKeyId_insert_ne _ _ _ _ slot_keys_distinct.2.2,
                    getKeyId_insert_self]]
              rw [show getKeyId
                    (insertKeyId
                      (insertKeyId (insertKeyId m INBOUND_KEY_ID (Value.IdV Id.unit_id))
                        OUTBOUND_KEY_ID (Value.IdV Id.unit_id))
                      UNDIRECTED_KEY_ID (Value.IdV Id.unit_id)) UNDIRECTED_KEY_ID =
                  some (Value.IdV Id.unit_id) from getKeyId_insert_self _ _ _]
              rfl
            · exact absurd heqc (by simp)
          · exact absurd h (by simp)
        · exact absurd h (by simp)

/-! ## Claim theorems -/

/-- C1 (amended): when `degree` and unfiltered `edges` both succeed they
agree: the degree equals the number of returned edges.  (The second half of
the original claim — an identical failure taxonomy — is refuted by
`C1_counterexample`: `degree` resolves the edge schema up front while
`edges` does not.) -/
theorem C1_degree_matches_edges (schemas : SchemaContainer) (store : Store)
    (vertex : Id) (r : SchemaRef) (ed : EdgeDirection) (n : Nat) (es : List Edge)
    (hdeg : txn_degree schemas store vertex r ed = .ok (.ok n))
    (hedg : txn_edges schemas store vertex r ed none = .ok (.ok es)) :
    n = es.length := by
  unfold txn_degree at hdeg
  split at hdeg
  · simp at hdeg
  next sid ea heq =>
    have hsid : sid = r.to_id schemas := by
      unfold edge_attr_from_schema at heq
      dsimp only at heq
      split at heq
      · simp only [Except.ok.injEq, Prod.mk.injEq] at heq
        exact heq.1.symm
      · simp at heq
      · simp at heq
    subst hsid
    dsimp only at hdeg
    split at hdeg
    · simp at hdeg
    next cnt heqc =>
      simp only [Except.ok.injEq] at hdeg
      unfold txn_edges at hedg
      dsimp only at hedg
      split at hedg
      · simp at hedg
      next ids heqi =>
        simp only [Except.ok.injEq] at hedg
        have hlen := edgesLoop_none_length schemas store vertex ed.as_field
          (r.to_id schemas) ids es hedg
        have hcnt := count_eq_iter_length store vertex ed.as_field (r.to_id schemas)
        rw [heqi, heqc] at hcnt
        simp only [Except.map, Except.ok.injEq] at hcnt
        omega

/-- C1 witness: a state where both operations succeed and agree: one simple
outbound edge gives degree 1 and one returned edge. -/
theorem C1_degree_matches_edges_witness :
    1 = [Edge.Simple vA OUTBOUND_KEY_ID 8 vB].length :=
  C1_degree_matches_edges schemasB storeLinked vA (SchemaRef.byId 8)
    EdgeDirection.Outbound 1 [Edge.Simple vA OUTBOUND_KEY_ID 8 vB] rfl rfl

/-- C1 counterexample: with an empty adjacency list and an unregistered
schema id (99), `edges` succeeds with the empty list while `degree` fails
with `CannotFindSchema`, so the two operations do not share one failure
taxonomy and do not always both succeed or both fail. -/
theorem C1_counterexample :
    txn_edges schemasA storeOneVertex vA (SchemaRef.byId 99)
        EdgeDirection.Outbound none = .ok (.ok []) ∧
    txn_degree schemasA storeOneVertex vA (SchemaRef.byId 99)
        EdgeDirection.Outbound = .ok (.error EdgeError.CannotFindSchema) :=
  ⟨rfl, rfl⟩

/-- C2: `link` resolves the schema type first: an unregistered schema id
yields `EdgeSchemaNotFound` and a registered non-edge schema yields
`SchemaNotEdge`, and in both cases the store (cells and adjacency lists) is
returned unmodified. -/
theorem C2_link_schema_errors (schemas : SchemaContainer) (store : Store)
    (from_id : Id) (r : SchemaRef) (to_id : Id) (body : Option MapB) :
    (schemas.schema_type (r.to_id schemas) = none →
      txn_link schemas store from_id r to_id body =
        .ok (.error LinkVerticesError.EdgeSchemaNotFound, store)) ∧
    (∀ st, schemas.schema_type (r.to_id schemas) = some st →
      (∀ ea, st ≠ SchemaType.Edge ea) →
      txn_link schemas store from_id r to_id body =
        .ok (.error LinkVerticesError.SchemaNotEdge, store)) := by
  constructor
  · intro h
    unfold txn_link
    dsimp only
    rw [h]
  · intro st h hne
    unfold txn_link
    dsimp only
    rw [h]
    cases st with
    | Unspecified => rfl
    | Vertex => rfl
    | Edge ea => exact absurd rfl (hne ea)

/-- C2 witness: linking under the unregistered id 99 and under the vertex
schema 10 fails with the two respective errors, leaving the store unchanged. -/
theorem C2_link_schema_errors_witness :
    txn_link schemasA storeOneVertex vA (SchemaRef.byId 99) vB none =
      .ok (.error LinkVerticesError.EdgeSchemaNotFound, storeOneVertex) ∧
    txn_link schemasA storeOneVertex vA (SchemaRef.byId 10) vB none =
      .ok (.error LinkVerticesError.SchemaNotEdge, storeOneVertex) :=
  ⟨(C2_link_schema_errors schemasA storeOneVertex vA (SchemaRef.byId 99) vB none).1 rfl,
   (C2_link_schema_errors schemasA storeOneVertex vA (SchemaRef.byId 10) vB none).2
     SchemaType.Vertex rfl (fun _ h => SchemaType.noConfusion h)⟩

/-- C7 (amended): the facade surfaces domain errors of `link` (and the other
read operations) as the inner result, but its `remove_vertex` converts any
domain-level removal failure into `TxnError::Aborted(None)`, aborting the
transaction instead of returning the inner error. -/
theorem C7_domain_error_surfacing (schemas : SchemaContainer) (store : Store)
    (from_id : Id) (r : SchemaRef) (to_id v : Id) (body : Option MapB) :
    (∀ e s2, txn_link schemas store from_id r to_id body = .ok (.error e, s2) →
      graph_link schemas store from_id r to_id body = .ok (.error e, s2)) ∧
    (∀ e s2, txn_remove_vertex schemas store v = .ok (.error e, s2) →
      graph_remove_vertex schemas store v = .error (TxnError.Aborted none)) := by
  constructor
  · intro e s2 h
    unfold graph_link graph_transaction
    exact h
  · intro e s2 h
    unfold graph_remove_vertex graph_transaction
    dsimp only
    rw [h]

/-- C7 witness: a concrete facade `link` failure stays inner while a
concrete facade `remove_vertex` failure becomes a transaction abort. -/
theorem C7_domain_error_surfacing_witness :
    graph_link schemasA storeOneVertex vA (SchemaRef.byId 99) vB none =
      .ok (.error LinkVerticesError.EdgeSchemaNotFound, storeOneVertex) ∧
    graph_remove_vertex schemasA storeOneVertex vB =
      .error (TxnError.Aborted none) := by
  have h := C7_domain_error_surfacing schemasA storeOneVertex vA (SchemaRef.byId 99) vB vB none
  exact ⟨h.1 LinkVerticesError.EdgeSchemaNotFound storeOneVertex rfl,
         h.2 RemoveError.VertexNotFound storeOneVertex rfl⟩

/-- C7 counterexample: removing an absent vertex is a domain-level failure
(`VertexNotFound` in the inner result of the transactional operation), yet
the facade returns `TxnError::Aborted(None)` instead of the inner error, so
the facade does not surface this domain error as the inner `Result`. -/
theorem C7_counterexample :
    txn_remove_vertex schemasA storeOneVertex vB =
      .ok (.error RemoveError.VertexNotFound, storeOneVertex) ∧
    graph_remove_vertex schemasA storeOneVertex vB =
      .error (TxnError.Aborted none) :=
  ⟨rfl, rfl⟩

/-- C10: a schema passed by name resolves through `id_from_name` with
`unwrap_or(0)`: an unregistered name silently becomes schema id 0, the
operations behave exactly as if id 0 had been passed, and `new_vertex` then
fails with `SchemaNotFound` only because id 0 has no registered type. -/
theorem C10_unknown_name_is_id_zero (schemas : SchemaContainer) (name : String)
    (store : Store) (data : MapB) (from_id to_id : Id) (body : Option MapB)
    (h : schemas.id_from_name name = none) :
    SchemaRef.to_id (SchemaRef.byName name) schemas = 0 ∧
    txn_new_vertex schemas store (SchemaRef.byName name) data =
      txn_new_vertex schemas store (SchemaRef.byId 0) data ∧
    txn_link schemas store from_id (SchemaRef.byName name) to_id body =
      txn_link schemas store from_id (SchemaRef.byId 0) to_id body ∧
    (schemas.schema_type 0 = none →
      txn_new_vertex schemas store (SchemaRef.byName name) data =
        .ok (.error NewVertexError.SchemaNotFound, store)) := by
  have h0 : SchemaRef.to_id (SchemaRef.byName name) schemas = 0 := by
    unfold SchemaRef.to_id
    dsimp only
    rw [h]
    rfl
  have hv : txn_new_vertex schemas store (SchemaRef.byName name) data =
      txn_new_vertex schemas store (SchemaRef.byId 0) data := by
    unfold txn_new_vertex
    rw [h0]
    rfl
  refine ⟨h0, hv, ?_, ?_⟩
  · unfold txn_link
    rw [h0]
    rfl
  · intro h2
    rw [hv]
    unfold txn_new_vertex vertex_to_cell_for_write
    dsimp only
    simp only [Vertex.new, Vertex.schema, SchemaRef.to_id, cell_to_vertex]
    rw [h2]

/-- C10 witness: the unknown name "nosuch" resolves to id 0 and `new_vertex`
under it fails with `SchemaNotFound` because schema 0 is unregistered. -/
theorem C10_unknown_name_is_id_zero_witness :
    SchemaRef.to_id (SchemaRef.byName "nosuch") schemasA = 0 ∧
    txn_new_vertex schemasA storeOneVertex (SchemaRef.byName "nosuch") [] =
      .ok (.error NewVertexError.SchemaNotFound, storeOneVertex) := by
  have h := C10_unknown_name_is_id_zero schemasA "nosuch" storeOneVertex [] vA vB none rfl
  exact ⟨h.1, h.2.2.2 rfl⟩

/-- C3: the vertex-to-cell translation returns `SchemaNotVertex` when the
registered type is not Vertex, `SchemaNotFound` when the type or the stored
layout is missing, `DataNotMap` when the body is not a map; a produced cell
carries the three reserved slots set to `UNIT_ID`, and
`CannotGenerateCellByData` occurs exactly when the injected field set does
not satisfy the schema. -/
theorem C3_vertex_to_cell_translation (schemas : SchemaContainer) (v : Vertex) :
    (∀ st, schemas.schema_type v.schema = some st → st ≠ SchemaType.Vertex →
      vertex_to_cell_for_write schemas v = .error (NewVertexError.SchemaNotVertex st)) ∧
    (schemas.schema_type v.schema = none →
      vertex_to_cell_for_write schemas v = .error NewVertexError.SchemaNotFound) ∧
    (schemas.schema_type v.schema = some SchemaType.Vertex →
      schemas.get_neb_schema v.schema = none →
      vertex_to_cell_for_write schemas v = .error NewVertexError.SchemaNotFound) ∧
    (∀ ns, schemas.schema_type v.schema = some SchemaType.Vertex →
      schemas.get_neb_schema v.schema = some ns →
      (∀ m : MapB, v.cell.data ≠ Value.MapV m) →
      vertex_to_cell_for_write schemas v = .error NewVertexError.DataNotMap) ∧
    (∀ c, vertex_to_cell_for_write schemas v = .ok c → cellSlotsAreUnit c = true) ∧
    (∀ ns m, schemas.schema_type v.schema = some SchemaType.Vertex →
      schemas.get_neb_schema v.schema = some ns →
      v.cell.data = Value.MapV m →
      (vertex_to_cell_for_write schemas v = .error NewVertexError.CannotGenerateCellByData ↔
        fieldsSatisfied (ns.fields.sub_fields.getD []) (injectSlots m) = false)) := by
  refine ⟨?_, ?_, ?_, ?_, ?_, ?_⟩
  · intro st h hne
    unfold vertex_to_cell_for_write
    dsimp only
    rw [h]
    dsimp only
    rw [if_pos hne]
  · intro h
    unfold vertex_to_cell_for_write
    dsimp only
    rw [h]
  · intro h1 h2
    unfold vertex_to_cell_for_write
    dsimp only
    rw [h1]
    dsimp only
    rw [if_neg (fun hc => hc rfl), h2]
  · intro ns h1 h2 h3
    unfold vertex_to_cell_for_write
    dsimp only
    rw [h1]
    dsimp only
    rw [if_neg (fun hc => hc rfl), h2]
    dsimp only
    cases hd : v.cell.data with
    | MapV m => exact absurd hd (h3 m)
    | IdV i => rfl
    | U64V n => rfl
    | Null => rfl
  · exact fun c hc => vertex_to_cell_slots_unit schemas v c hc
  · intro ns m h1 h2 h3
    unfold vertex_to_cell_for_write
    dsimp only
    rw [h1]
    dsimp only
    rw [if_neg (fun hc => hc rfl), h2]
    dsimp only
    rw [h3]
    dsimp only
    unfold Cell.new
    dsimp only
    by_cases hf : fieldsSatisfied (ns.fields.sub_fields.getD []) (injectSlots m) = true
    · rw [show fieldsSatisfied ((ns.fields.sub_fields).getD [])
          (insertKeyId
            (insertKeyId (insertKeyId m INBOUND_KEY_ID (Value.IdV Id.unit_id))
              OUTBOUND_KEY_ID (Value.IdV Id.unit_id))
            UNDIRECTED_KEY_ID (Value.IdV Id.unit_id)) = true from hf]
      simp [hf]
    · rw [show fieldsSatisfied ((ns.fields.sub_fields).getD [])
          (insertKeyId
            (insertKeyId (insertKeyId m INBOUND_KEY_ID (Value.IdV Id.unit_id))
              OUTBOUND_KEY_ID (Value.IdV Id.unit_id))
            UNDIRECTED_KEY_ID (Value.IdV Id.unit_id)) = false from eq_false_of_ne_true hf]
      simp [eq_false_of_ne_true hf]

/-- C3 witness: concrete instances of the translation's outcomes: an edge
schema is rejected as `SchemaNotVertex`, an unknown id as `SchemaNotFound`,
and a well-formed person vertex yields a cell whose three slots hold
`UNIT_ID`. -/
theorem C3_vertex_to_cell_translation_witness :
    vertex_to_cell_for_write schemasA (Vertex.new 7 []) =
      .error (NewVertexError.SchemaNotVertex (SchemaType.Edge ⟨EdgeType.Undirected, false⟩)) ∧
    vertex_to_cell_for_write schemasA (Vertex.new 99 []) =
      .error NewVertexError.SchemaNotFound ∧
    ∃ c, vertex_to_cell_for_write schemasA
          (Vertex.new 10 [(key_hash "name", Value.U64V 1)]) = .ok c ∧
        cellSlotsAreUnit c = true := by
  refine ⟨?_, ?_, ?_⟩
  · exact (C3_vertex_to_cell_translation schemasA (Vertex.new 7 [])).1
      (SchemaType.Edge ⟨EdgeType.Undirected, false⟩) rfl (by decide)
  · exact (C3_vertex_to_cell_translation schemasA (Vertex.new 99 [])).2.1 rfl
  · exact ⟨_, rfl,
      (C3_vertex_to_cell_translation schemasA
        (Vertex.new 10 [(key_hash "name", Value.U64V 1)])).2.2.2.2.1 _ rfl⟩

/-- C8: a successful `new_vertex` — facade or transactional — appends
exactly one new cell to the store, keyed by the returned vertex's id and
equal to the returned vertex's cell, whose three slots hold `UNIT_ID`; the
facade's returned header is the Store-filled one (version stamped by the
write). -/
theorem C8_new_vertex_writes_one_cell (schemas : SchemaContainer)
    (store : Store) (r : SchemaRef) (data : MapB) :
    (∀ v s2, graph_new_vertex schemas store r data = (.ok v, s2) →
      s2.cells = store.cells ++ [(v.vid, v.cell)] ∧
      cellSlotsAreUnit v.cell = true ∧ v.cell.header.version = 1) ∧
    (∀ v s2, txn_new_vertex schemas store r data = .ok (.ok v, s2) →
      s2.cells = store.cells ++ [(v.vid, v.cell)] ∧
      cellSlotsAreUnit v.cell = true) := by
  constructor
  · intro v s2 h
    unfold graph_new_vertex at h
    dsimp only at h
    split at h
    · simp at h
    next cell heqc =>
      split at h
      next e s2x heqw => simp at h
      next header s2x heqw =>
        simp only [Prod.mk.injEq, Except.ok.injEq] at h
        obtain ⟨h1, h2⟩ := h
        subst h1
        subst h2
        unfold Store.write_cell at heqw
        dsimp only at heqw
        split at heqw
        · simp at heqw
        · simp only [Prod.mk.injEq, Except.ok.injEq] at heqw
          obtain ⟨hw1, hw2⟩ := heqw
          subst hw1
          subst hw2
          refine ⟨rfl, ?_, rfl⟩
          exact vertex_to_cell_slots_unit schemas _ cell heqc
  · intro v s2 h
    unfold txn_new_vertex at h
    dsimp only at h
    split at h
    · simp at h
    next cell heqc =>
      split at h
      next te heqw => simp at h
      next s2x heqw =>
        simp only [Except.ok.injEq, Prod.mk.injEq] at h
        obtain ⟨h1, h2⟩ := h
        subst h1
        subst h2
        unfold txnWrite at heqw
        split at heqw
        · simp at heqw
        · simp only [Except.ok.injEq] at heqw
          subst heqw
          exact ⟨rfl, vertex_to_cell_slots_unit schemas _ cell heqc⟩

/-- C8 witness: creating a person vertex on the one-vertex store appends
exactly the returned vertex's cell, with unit slots, in both variants. -/
theorem C8_new_vertex_writes_one_cell_witness :
    (∃ v s2, graph_new_vertex schemasA storeOneVertex (SchemaRef.byId 10)
        [(key_hash "name", Value.U64V 1)] = (.ok v, s2) ∧
      s2.cells = storeOneVertex.cells ++ [(v.vid, v.cell)] ∧
      cellSlotsAreUnit v.cell = true ∧ v.cell.header.version = 1) ∧
    (∃ v s2, txn_new_vertex schemasA storeOneVertex (SchemaRef.byId 10)
        [(key_hash "name", Value.U64V 1)] = .ok (.ok v, s2) ∧
      s2.cells = storeOneVertex.cells ++ [(v.vid, v.cell)] ∧
      cellSlotsAreUnit v.cell = true) := by
  have h := C8_new_vertex_writes_one_cell schemasA storeOneVertex
    (SchemaRef.byId 10) [(key_hash "name", Value.U64V 1)]
  constructor
  · exact ⟨_, _, rfl, h.1 _ _ rfl⟩
  · exact ⟨_, _, rfl, h.2 _ _ rfl⟩

/-- The `edges` loop equals filtering the reconstructed edges when every
filter evaluation returns a boolean. -/
theorem edgesLoop_filter (schemas : SchemaContainer) (store : Store)
    (vid : Id) (field sid : Nat) (filter : Option (List SExpr)) (f : Edge → Bool) :
    ∀ (ids : List Id) (es : List Edge),
      reconstructAll schemas store vid field sid ids = .ok es →
      (∀ e ∈ es, Tester.eval_with_edge filter e = .ok (f e)) →
      edgesLoop schemas store vid field sid filter ids = .ok (es.filter f) := by
  intro ids
  induction ids with
  | nil =>
      intro es h hf
      unfold reconstructAll at h
      injection h with h2
      subst h2
      rfl
  | cons id rest ih =>
      intro es h hf
      unfold reconstructAll at h
      split at h
      · simp at h
      next edge heqr =>
        cases ht : reconstructAll schemas store vid field sid rest with
        | error e2 => rw [ht] at h; simp [Except.map] at h
        | ok tail =>
            rw [ht] at h
            simp only [Except.map, Except.ok.injEq] at h
            subst h
            unfold edgesLoop
            rw [heqr]
            dsimp only
            rw [hf edge (List.mem_cons_self edge tail)]
            have htail := ih tail ht (fun e he => hf e (List.mem_cons_of_mem edge he))
            cases hfe : f edge
            · dsimp only
              rw [htail]
              simp [List.filter_cons, hfe]
            · dsimp only
              rw [htail]
              simp [Except.map, List.filter_cons, hfe]

/-- The first filter-evaluation error aborts the `edges` loop with
`FilterEvalError` and no partial result. -/
theorem edgesLoop_first_eval_error (schemas : SchemaContainer) (store : Store)
    (vid : Id) (field sid : Nat) (filter : Option (List SExpr)) :
    ∀ (ids1 : List Id) (es1 : List Edge) (id : Id) (ids2 : List Id)
      (e : Edge) (msg : String),
      reconstructAll schemas store vid field sid ids1 = .ok es1 →
      (∀ e1 ∈ es1, ∃ b, Tester.eval_with_edge filter e1 = .ok b) →
      edge_from_id vid field sid schemas store id = .ok e →
      Tester.eval_with_edge filter e = .error msg →
      edgesLoop schemas store vid field sid filter (ids1 ++ id :: ids2) =
        .error (EdgeError.FilterEvalError msg) := by
  intro ids1
  induction ids1 with
  | nil =>
      intro es1 id ids2 e msg h1 h2 h3 h4
      rw [List.nil_append]
      unfold edgesLoop
      rw [h3]
      dsimp only
      rw [h4]
  | cons x rest ih =>
      intro es1 id ids2 e msg h1 h2 h3 h4
      unfold reconstructAll at h1
      split at h1
      · simp at h1
      next ex heqx =>
        cases ht : reconstructAll schemas store vid field sid rest with
        | error e2 => rw [ht] at h1; simp [Except.map] at h1
        | ok tail =>
            rw [ht] at h1
            simp only [Except.map, Except.ok.injEq] at h1
            subst h1
            rw [List.cons_append]
            unfold edgesLoop
            rw [heqx]
            dsimp only
            obtain ⟨b, hb⟩ := h2 ex (List.mem_cons_self ex tail)
            rw [hb]
            have hrec := ih tail id ids2 e msg ht
              (fun e1 he1 => h2 e1 (List.mem_cons_of_mem ex he1)) h3 h4
            cases b
            · exact hrec
            · rw [hrec]
              rfl

/-- C4: `edges(v, S, dir, f)` iterates the id-list addressed by the slot
field of the direction, reconstructs each listed id into an edge, and
returns — in iteration order — exactly those whose filter is absent or
evaluates true; the first filter-evaluation error aborts the whole call with
`FilterEvalError` and no partial result. -/
theorem C4_edges_contract (schemas : SchemaContainer) (store : Store)
    (vertex : Id) (r : SchemaRef) (ed : EdgeDirection)
    (filter : Option (List SExpr)) (ids : List Id)
    (hiter : IdList.iter store vertex ed.as_field (r.to_id schemas) = .ok ids) :
    (∀ (f : Edge → Bool) (es : List Edge),
        reconstructAll schemas store vertex ed.as_field (r.to_id schemas) ids = .ok es →
        (∀ e ∈ es, Tester.eval_with_edge filter e = .ok (f e)) →
        txn_edges schemas store vertex r ed filter = .ok (.ok (es.filter f))) ∧
    (∀ es,
        reconstructAll schemas store vertex ed.as_field (r.to_id schemas) ids = .ok es →
        txn_edges schemas store vertex r ed none = .ok (.ok es)) ∧
    (∀ ids1 es1 id ids2 e msg,
        ids = ids1 ++ id :: ids2 →
        reconstructAll schemas store vertex ed.as_field (r.to_id schemas) ids1 = .ok es1 →
        (∀ e1 ∈ es1, ∃ b, Tester.eval_with_edge filter e1 = .ok b) →
        edge_from_id vertex ed.as_field (r.to_id schemas) schemas store id = .ok e →
        Tester.eval_with_edge filter e = .error msg →
        txn_edges schemas store vertex r ed filter =
          .ok (.error (EdgeError.FilterEvalError msg))) := by
  have hunf : ∀ flt, txn_edges schemas store vertex r ed flt =
      .ok (edgesLoop schemas store vertex ed.as_field (r.to_id schemas) flt ids) := by
    intro flt
    unfold txn_edges
    dsimp only
    rw [hiter]
  refine ⟨?_, ?_, ?_⟩
  · intro f es h hf
    rw [hunf filter,
        edgesLoop_filter schemas store vertex ed.as_field (r.to_id schemas)
          filter f ids es h hf]
  · intro es h
    rw [hunf none,
        edgesLoop_filter schemas store vertex ed.as_field (r.to_id schemas)
          none (fun _ => true) ids es h (fun e _ => rfl)]
    simp
  · intro ids1 es1 id ids2 e msg hsplit h1 h2 h3 h4
    rw [hunf filter, hsplit,
        edgesLoop_first_eval_error schemas store vertex ed.as_field
          (r.to_id schemas) filter ids1 es1 id ids2 e msg h1 h2 h3 h4]

/-- C4 witness: on the committed simple edge, no filter returns the one
edge, a constantly-false filter returns none, and an erroring filter aborts
the call with `FilterEvalError`. -/
theorem C4_edges_contract_witness :
    txn_edges schemasB storeLinked vA (SchemaRef.byId 8) EdgeDirection.Outbound
        none = .ok (.ok [Edge.Simple vA OUTBOUND_KEY_ID 8 vB]) ∧
    txn_edges schemasB storeLinked vA (SchemaRef.byId 8) EdgeDirection.Outbound
        (some [SExpr.constBool false]) = .ok (.ok []) ∧
    txn_edges schemasB storeLinked vA (SchemaRef.byId 8) EdgeDirection.Outbound
        (some [SExpr.evalError "boom"]) =
      .ok (.error (EdgeError.FilterEvalError "boom")) := by
  have hnone := C4_edges_contract schemasB storeLinked vA (SchemaRef.byId 8)
    EdgeDirection.Outbound none [vB] rfl
  have hfalse := C4_edges_contract schemasB storeLinked vA (SchemaRef.byId 8)
    EdgeDirection.Outbound (some [SExpr.constBool false]) [vB] rfl
  have hboom := C4_edges_contract schemasB storeLinked vA (SchemaRef.byId 8)
    EdgeDirection.Outbound (some [SExpr.evalError "boom"]) [vB] rfl
  refine ⟨?_, ?_, ?_⟩
  · exact hnone.2.1 [Edge.Simple vA OUTBOUND_KEY_ID 8 vB] rfl
  · exact hfalse.1 (fun _ => false) [Edge.Simple vA OUTBOUND_KEY_ID 8 vB] rfl
      (fun e _ => rfl)
  · exact hboom.2.2 [] [] vB [] (Edge.Simple vA OUTBOUND_KEY_ID 8 vB) "boom"
      rfl rfl (fun e1 he1 => absurd he1 (List.not_mem_nil e1)) rfl rfl

/-- The `neighbourhoods` loop equals filtering the resolved pairs when
every evaluation returns a boolean. -/
theorem neighbourhoodsLoop_filter (schemas : SchemaContainer) (store : Store)
    (vid : Id) (field sid : Nat) (filter : Option (List SExpr))
    (f : Vertex × Edge → Bool) :
    ∀ (ids : List Id) (ps : List (Vertex × Edge)),
      resolveAll schemas store vid field sid ids = .ok ps →
      (∀ p ∈ ps, Tester.eval_with_edge_and_vertex filter p.1 p.2 = .ok (f p)) →
      neighbourhoodsLoop schemas store vid field sid filter ids = .ok (ps.filter f) := by
  intro ids
  induction ids with
  | nil =>
      intro ps h hf
      unfold resolveAll at h
      injection h with h2
      subst h2
      rfl
  | cons id rest ih =>
      intro ps h hf
      unfold resolveAll at h
      split at h
      · simp at h
      next p heqr =>
        obtain ⟨pv, pe⟩ := p
        cases ht : resolveAll schemas store vid field sid rest with
        | error e2 => rw [ht] at h; simp [Except.map] at h
        | ok tail =>
            rw [ht] at h
            simp only [Except.map, Except.ok.injEq] at h
            subst h
            unfold neighbourhoodsLoop
            rw [heqr]
            dsimp only
            rw [hf (pv, pe) (List.mem_cons_self (pv, pe) tail)]
            have htail := ih tail ht (fun q hq => hf q (List.mem_cons_of_mem (pv, pe) hq))
            cases hfe : f (pv, pe)
            · dsimp only
              rw [htail]
              simp [List.filter_cons, hfe]
            · dsimp only
              rw [htail]
              simp [Except.map, List.filter_cons, hfe]

/-- A resolution failure (edge error, missing opposite endpoint or missing
opposite vertex) aborts the `neighbourhoods` loop with that error. -/
theorem neighbourhoodsLoop_resolve_error (schemas : SchemaContainer)
    (store : Store) (vid : Id) (field sid : Nat) (filter : Option (List SExpr)) :
    ∀ (ids1 : List Id) (ps1 : List (Vertex × Edge)) (id : Id) (ids2 : List Id)
      (err : NeighbourhoodError),
      resolveAll schemas store vid field sid ids1 = .ok ps1 →
      (∀ p ∈ ps1, ∃ b, Tester.eval_with_edge_and_vertex filter p.1 p.2 = .ok b) →
      neighbourResolve schemas store vid field sid id = .error err →
      neighbourhoodsLoop schemas store vid field sid filter (ids1 ++ id :: ids2) =
        .error err := by
  intro ids1
  induction ids1 with
  | nil =>
      intro ps1 id ids2 err h1 h2 h3
      rw [List.nil_append]
      unfold neighbourhoodsLoop
      rw [h3]
  | cons x rest ih =>
      intro ps1 id ids2 err h1 h2 h3
      unfold resolveAll at h1
      split at h1
      · simp at h1
      next p heqx =>
        obtain ⟨pv, pe⟩ := p
        cases ht : resolveAll schemas store vid field sid rest with
        | error e2 => rw [ht] at h1; simp [Except.map] at h1
        | ok tail =>
            rw [ht] at h1
            simp only [Except.map, Except.ok.injEq] at h1
            subst h1
            rw [List.cons_append]
            unfold neighbourhoodsLoop
            rw [heqx]
            dsimp only
            obtain ⟨b, hb⟩ := h2 (pv, pe) (List.mem_cons_self (pv, pe) tail)
            rw [hb]
            have hrec := ih tail id ids2 err ht
              (fun q hq => h2 q (List.mem_cons_of_mem (pv, pe) hq)) h3
            cases b
            · exact hrec
            · rw [hrec]
              rfl

/-- The first filter-evaluation error aborts the `neighbourhoods` loop with
`FilterEvalError` and no partial result. -/
theorem neighbourhoodsLoop_eval_error (schemas : SchemaContainer)
    (store : Store) (vid : Id) (field sid : Nat) (filter : Option (List SExpr)) :
    ∀ (ids1 : List Id) (ps1 : List (Vertex × Edge)) (id : Id) (ids2 : List Id)
      (p : Vertex × Edge) (msg : String),
      resolveAll schemas store vid field sid ids1 = .ok ps1 →
      (∀ q ∈ ps1, ∃ b, Tester.eval_with_edge_and_vertex filter q.1 q.2 = .ok b) →
      neighbourResolve schemas store vid field sid id = .ok p →
      Tester.eval_with_edge_and_vertex filter p.1 p.2 = .error msg →
      neighbourhoodsLoop schemas store vid field sid filter (ids1 ++ id :: ids2) =
        .error (NeighbourhoodError.FilterEvalError msg) := by
  intro ids1
  induction ids1 with
  | nil =>
      intro ps1 id ids2 p msg h1 h2 h3 h4
      obtain ⟨pv, pe⟩ := p
      rw [List.nil_append]
      unfold neighbourhoodsLoop
      rw [h3]
      dsimp only
      rw [h4]
  | cons x rest ih =>
      intro ps1 id ids2 p msg h1 h2 h3 h4
      unfold resolveAll at h1
      split at h1
      · simp at h1
      next q heqx =>
        obtain ⟨qv, qe⟩ := q
        cases ht : resolveAll schemas store vid field sid rest with
        | error e2 => rw [ht] at h1; simp [Except.map] at h1
        | ok tail =>
            rw [ht] at h1
            simp only [Except.map, Except.ok.injEq] at h1
            subst h1
            rw [List.cons_append]
            unfold neighbourhoodsLoop
            rw [heqx]
            dsimp only
            obtain ⟨b, hb⟩ := h2 (qv, qe) (List.mem_cons_self (qv, qe) tail)
            rw [hb]
            have hrec := ih tail id ids2 p msg ht
              (fun q2 hq2 => h2 q2 (List.mem_cons_of_mem (qv, qe) hq2)) h3 h4
            cases b
            · exact hrec
            · rw [hrec]
              rfl

/-- C5: `neighbourhoods` processes each reconstructed edge as `edges` does,
additionally resolving the opposite endpoint — `CannotFindOppositeId` when
the edge cannot name one, `VertexNotFound` with the opposite id when its
cell is absent — and includes the (opposite vertex, edge) pair exactly when
the filter, with both in scope, is absent or true; any per-id failure aborts
the whole call. -/
theorem C5_neighbourhoods_contract (schemas : SchemaContainer) (store : Store)
    (vertex : Id) (r : SchemaRef) (ed : EdgeDirection)
    (filter : Option (List SExpr)) (ids : List Id)
    (hiter : IdList.iter store vertex ed.as_field (r.to_id schemas) = .ok ids) :
    (∀ (f : Vertex × Edge → Bool) ps,
        resolveAll schemas store vertex ed.as_field (r.to_id schemas) ids = .ok ps →
        (∀ p ∈ ps, Tester.eval_with_edge_and_vertex filter p.1 p.2 = .ok (f p)) →
        txn_neighbourhoods schemas store vertex r ed filter = .ok (.ok (ps.filter f))) ∧
    (∀ ps,
        resolveAll schemas store vertex ed.as_field (r.to_id schemas) ids = .ok ps →
        txn_neighbourhoods schemas store vertex r ed none = .ok (.ok ps)) ∧
    (∀ id edge,
        edge_from_id vertex ed.as_field (r.to_id schemas) schemas store id = .ok edge →
        edge.one_opposite_id_vertex_id vertex = none →
        neighbourResolve schemas store vertex ed.as_field (r.to_id schemas) id =
          .error (NeighbourhoodError.CannotFindOppositeId vertex)) ∧
    (∀ id edge oid,
        edge_from_id vertex ed.as_field (r.to_id schemas) schemas store id = .ok edge →
        edge.one_opposite_id_vertex_id vertex = some oid →
        store.read_cell oid = none →
        neighbourResolve schemas store vertex ed.as_field (r.to_id schemas) id =
          .error (NeighbourhoodError.VertexNotFound oid)) ∧
    (∀ ids1 ps1 id ids2 err,
        ids = ids1 ++ id :: ids2 →
        resolveAll schemas store vertex ed.as_field (r.to_id schemas) ids1 = .ok ps1 →
        (∀ p ∈ ps1, ∃ b, Tester.eval_with_edge_and_vertex filter p.1 p.2 = .ok b) →
        neighbourResolve schemas store vertex ed.as_field (r.to_id schemas) id =
          .error err →
        txn_neighbourhoods schemas store vertex r ed filter = .ok (.error err)) := by
  have hunf : ∀ flt, txn_neighbourhoods schemas store vertex r ed flt =
      .ok (neighbourhoodsLoop schemas store vertex ed.as_field (r.to_id schemas) flt ids) := by
    intro flt
    unfold txn_neighbourhoods
    dsimp only
    rw [hiter]
  refine ⟨?_, ?_, ?_, ?_, ?_⟩
  · intro f ps h hf
    rw [hunf filter,
        neighbourhoodsLoop_filter schemas store vertex ed.as_field
          (r.to_id schemas) filter f ids ps h hf]
  · intro ps h
    rw [hunf none,
        neighbourhoodsLoop_filter schemas store vertex ed.as_field
          (r.to_id schemas) none (fun _ => true) ids ps h (fun p _ => rfl)]
    simp
  · intro id edge h1 h2
    unfold neighbourResolve
    rw [h1]
    dsimp only
    rw [h2]
  · intro id edge oid h1 h2 h3
    unfold neighbourResolve
    rw [h1]
    dsimp only
    rw [h2]
    dsimp only
    rw [h3]
  · intro ids1 ps1 id ids2 err hsplit h1 h2 h3
    rw [hunf filter, hsplit,
        neighbourhoodsLoop_resolve_error schemas store vertex ed.as_field
          (r.to_id schemas) filter ids1 ps1 id ids2 err h1 h2 h3]

/-- C5 witness: on the committed simple edge the unfiltered call returns the
(opposite vertex, edge) pair; with the opposite cell missing it fails with
`VertexNotFound vB`; on a corrupt with-body edge with no endpoint fields it
fails with `CannotFindOppositeId vA`. -/
theorem C5_neighbourhoods_contract_witness :
    txn_neighbourhoods schemasB storeLinked vA (SchemaRef.byId 8)
        EdgeDirection.Outbound none =
      .ok (.ok [(cell_to_vertex (bareVertexCell vB),
                 Edge.Simple vA OUTBOUND_KEY_ID 8 vB)]) ∧
    txn_neighbourhoods schemasB storeNoOpp vA (SchemaRef.byId 8)
        EdgeDirection.Outbound none =
      .ok (.error (NeighbourhoodError.VertexNotFound vB)) ∧
    txn_neighbourhoods schemasC storeCorrupt vA (SchemaRef.byId 9)
        EdgeDirection.Outbound none =
      .ok (.error (NeighbourhoodError.CannotFindOppositeId vA)) := by
  have hlinked := C5_neighbourhoods_contract schemasB storeLinked vA
    (SchemaRef.byId 8) EdgeDirection.Outbound none [vB] rfl
  have hnoopp := C5_neighbourhoods_contract schemasB storeNoOpp vA
    (SchemaRef.byId 8) EdgeDirection.Outbound none [vB] rfl
  have hcorrupt := C5_neighbourhoods_contract schemasC storeCorrupt vA
    (SchemaRef.byId 9) EdgeDirection.Outbound none [eCell] rfl
  refine ⟨?_, ?_, ?_⟩
  · exact hlinked.2.1
      [(cell_to_vertex (bareVertexCell vB), Edge.Simple vA OUTBOUND_KEY_ID 8 vB)] rfl
  · exact hnoopp.2.2.2.2 [] [] vB [] (NeighbourhoodError.VertexNotFound vB) rfl rfl
      (fun p hp => absurd hp (List.not_mem_nil p)) rfl
  · exact hcorrupt.2.2.2.2 [] [] eCell [] (NeighbourhoodError.CannotFindOppositeId vA)
      rfl rfl (fun p hp => absurd hp (List.not_mem_nil p)) rfl

/-- C6: composing the stored cell layout fails with
`SimpleEdgeShouldNotHaveSchema` exactly for a bodyless edge schema with a
non-empty user field list, and with `SchemaTypeUnspecified` exactly for the
`Unspecified` schema type, so a simple edge schema with user fields is
always rejected at schema-creation time. -/
theorem C6_cell_fields_rejections :
    ∀ (t : SchemaType) (fs : List Field),
      (cell_fields t fs = .error SchemaError.SimpleEdgeShouldNotHaveSchema ↔
        ∃ ea, t = SchemaType.Edge ea ∧ ea.has_body = false ∧ fs ≠ []) ∧
      (cell_fields t fs = .error SchemaError.SchemaTypeUnspecified ↔
        t = SchemaType.Unspecified) := by
  intro t fs
  constructor
  · cases t with
    | Unspecified => simp [cell_fields]
    | Vertex => simp [cell_fields]
    | Edge ea =>
        cases hb : ea.has_body with
        | false =>
            cases fs with
            | nil => cases he : ea.edge_type <;> simp [cell_fields, hb, he]
            | cons x xs => simp [cell_fields, hb]
        | true =>
            cases he : ea.edge_type <;> simp [cell_fields, hb, he]
  · cases t with
    | Unspecified => simp [cell_fields]
    | Vertex => simp [cell_fields]
    | Edge ea =>
        cases hb : ea.has_body <;> cases he : ea.edge_type <;>
          cases fs <;> simp [cell_fields, hb, he]

/-- C9: the stored layout of a with-body undirected edge schema is the two
`Id`-typed endpoint fields `_vertex_a`, `_vertex_b` followed by the user
fields in order; a directed schema's layout analogously starts with its
endpoint fields `_vertex_from`, `_vertex_to`. -/
theorem C9_edge_cell_layout :
    ∀ (fs : List Field),
      cell_fields (SchemaType.Edge ⟨EdgeType.Undirected, true⟩) fs =
        .ok (Field.new "_vertex_a" TYPE_ID_OF_ID false false none ::
             Field.new "_vertex_b" TYPE_ID_OF_ID false false none :: fs) ∧
      cell_fields (SchemaType.Edge ⟨EdgeType.Directed, true⟩) fs =
        .ok (Field.new "_vertex_from" TYPE_ID_OF_ID false false none ::
             Field.new "_vertex_to" TYPE_ID_OF_ID false false none :: fs) := by
  intro fs
  exact ⟨rfl, rfl⟩

end Morpheus


